import Mathlib

/-!
H618 GPU driver core: register protocol and lifecycle.

A shallow embedding of `drivers/gpu-h618` (`include/gpu_h618.h`, `src/gpu_init.c`).

* A pointer is a natural number, `0` being `NULL`. A `struct gpu_device *` is an
  `Option gpu_device`: `none` is the null pointer, `some d` a valid pointer whose
  pointee currently holds `d`. Every operation returns the pointee as it is on exit.
* The register window is volatile memory. Every access is appended to a log, oldest
  first, as the pair (window base, byte offset) with the 32-bit value moved. Whether
  the base really maps a register window is a contract of the caller and is not
  modelled: an access never faults.
* The hardware is an arbitrary stream `hw : Nat → Nat`; `hw n` is the raw word the
  hardware presents to the `n`-th register read (counted from `0` over the whole run)
  and `gpu_read32` delivers it truncated to 32 bits. The code is deterministic, so
  quantifying over all streams covers every behaviour the hardware can show to it.
* C `int` results are `Int`; `uint32_t` values are `Nat` reduced modulo `2 ^ 32`.
-/

namespace GpuH618

/-! ## Constants of `gpu_h618.h` -/

def GPU_BASE_ADDR : Nat := 0x01800000
def GPU_IRQ_NUM : Nat := 97

def GPU_CTRL_REG : Nat := 0x000
def GPU_STATUS_REG : Nat := 0x034
def GPU_CMD_REG : Nat := 0x030
def GPU_IRQ_STATUS : Nat := 0x02C
def GPU_IRQ_CLEAR : Nat := 0x024
def GPU_IRQ_MASK : Nat := 0x028

def GPU_PWR_KEY : Nat := 0x050
def GPU_PWR_OVERRIDE : Nat := 0x054

/-- The device structure `struct gpu_device`: `regs` is the mapped base (`0` is `NULL`). -/
structure gpu_device where
  regs : Nat
  irq : Int
  initialized : Bool
  features : Nat
deriving DecidableEq, Repr

/-- One volatile access to a register: the window base, the byte offset, the value. -/
inductive Access where
  | read (base offset value : Nat)
  | write (base offset value : Nat)
deriving DecidableEq, Repr

/-- The register bus: how many reads have been served and the log of all accesses. -/
structure Bus where
  reads : Nat
  log : List Access
deriving DecidableEq, Repr

/-- The inline `gpu_read32`: a volatile 32-bit load from `dev->regs + offset`. -/
def gpu_read32 (hw : Nat → Nat) (dev : gpu_device) (offset : Nat) (b : Bus) : Nat × Bus :=
  let value := hw b.reads % 2 ^ 32
  (value, { reads := b.reads + 1, log := b.log ++ [Access.read dev.regs offset value] })

/-- The inline `gpu_write32`: a volatile 32-bit store to `dev->regs + offset`. -/
def gpu_write32 (dev : gpu_device) (offset value : Nat) (b : Bus) : Bus :=
  { reads := b.reads, log := b.log ++ [Access.write dev.regs offset (value % 2 ^ 32)] }

/-- The loop `while (timeout-- > 0) { ... }` of `gpu_reset`, entered with the counter at
`timeout`: the test passes while the counter is positive and the body runs with the
counter already decremented. The result is the value `gpu_reset` returns. -/
def gpu_reset_poll (hw : Nat → Nat) (dev : gpu_device) : Nat → Bus → Int × Bus
  | 0, b => (-1, b)
  | timeout + 1, b =>
    let r := gpu_read32 hw dev GPU_STATUS_REG b
    let status := r.1
    if status &&& 0x01 = 0 then (0, r.2) else gpu_reset_poll hw dev timeout r.2

/-- The function `gpu_reset`. -/
def gpu_reset (hw : Nat → Nat) (dev : Option gpu_device) (b : Bus) :
    Int × Option gpu_device × Bus :=
  match dev with
  | none => (-1, none, b)
  | some d =>
    let b1 := gpu_write32 d GPU_CMD_REG 0x01 b
    let r := gpu_reset_poll hw d 1000 b1
    (r.1, some d, r.2)

/-- The function `gpu_init`. The call `gpu_reset(dev)` is made on the pointer that has
just passed the null check, so of the two shapes its result can have only the one with a
valid pointer occurs; the other arm is there to make the match complete. -/
def gpu_init (hw : Nat → Nat) (dev : Option gpu_device) (base : Nat) (irq : Int) (b : Bus) :
    Int × Option gpu_device × Bus :=
  match dev with
  | none => (-1, none, b)
  | some d =>
    if base = 0 then (-1, some d, b)
    else
      let d1 : gpu_device := { d with regs := base, irq := irq, initialized := false }
      match gpu_reset hw (some d1) b with
      | (_, none, b1) => (-1, none, b1)
      | (r, some d2, b1) =>
        if r ≠ 0 then (-1, some d2, b1)
        else
          let b2 := gpu_write32 d2 GPU_IRQ_CLEAR 0xFFFFFFFF b1
          let b3 := gpu_write32 d2 GPU_IRQ_MASK 0x01 b2
          let b4 := gpu_write32 d2 GPU_PWR_OVERRIDE 0xFFFFFFFF b3
          (0, some { d2 with initialized := true }, b4)

/-- The function `gpu_cleanup` (it returns `void`). -/
def gpu_cleanup (dev : Option gpu_device) (b : Bus) : Option gpu_device × Bus :=
  match dev with
  | none => (none, b)
  | some d =>
    if !d.initialized then (some d, b)
    else
      let b1 := gpu_write32 d GPU_IRQ_MASK 0 b
      let b2 := gpu_write32 d GPU_IRQ_CLEAR 0xFFFFFFFF b1
      let b3 := gpu_write32 d GPU_PWR_OVERRIDE 0 b2
      (some { d with initialized := false }, b3)

/-- The function `gpu_submit_job`; `job` is a pointer, `0` being `NULL`. -/
def gpu_submit_job (dev : Option gpu_device) (job : Nat) (b : Bus) :
    Int × Option gpu_device × Bus :=
  match dev with
  | none => (-1, none, b)
  | some d =>
    if !d.initialized || job = 0 then (-1, some d, b)
    else (0, some d, b)

/-! ## Observations on the access log -/

/-- The accesses a call performed: what the log gained between entry and exit. -/
def performed (entry exit : Bus) : List Access :=
  exit.log.drop entry.log.length

/-- The register writes among some accesses, in order. -/
def writesOf : List Access → List Access
  | [] => []
  | Access.write base offset value :: rest => Access.write base offset value :: writesOf rest
  | Access.read _ _ _ :: rest => writesOf rest

/-- The register reads among some accesses, in order. -/
def readsOf : List Access → List Access
  | [] => []
  | Access.read base offset value :: rest => Access.read base offset value :: readsOf rest
  | Access.write _ _ _ :: rest => readsOf rest

/-- The value a mock register holds after some accesses: the last value written to
`base + offset`, if any. -/
def lastWritten (base offset : Nat) : List Access → Option Nat
  | [] => none
  | Access.write b o v :: rest =>
    match lastWritten base offset rest with
    | some w => some w
    | none => if b = base ∧ o = offset then some v else none
  | Access.read _ _ _ :: rest => lastWritten base offset rest

/-- The reads of the status register that a poll loop makes when it runs for `n`
rounds starting at read number `start`. -/
def statusReads (hw : Nat → Nat) (base start n : Nat) : List Access :=
  (List.range n).map fun i => Access.read base GPU_STATUS_REG (hw (start + i) % 2 ^ 32)

/-- The bus after a poll loop has made `n` status reads starting from bus `b`. -/
def afterPolls (hw : Nat → Nat) (base : Nat) (b : Bus) (n : Nat) : Bus :=
  { reads := b.reads + n, log := b.log ++ statusReads hw base b.reads n }

/-- A caller that submits the jobs of a list one after the other to the same device,
ignoring the results; it yields the device and the bus after the last submission. -/
def submitAll (dev : Option gpu_device) (b : Bus) : List Nat → Option gpu_device × Bus
  | [] => (dev, b)
  | job :: jobs => submitAll (gpu_submit_job dev job b).2.1 (gpu_submit_job dev job b).2.2 jobs

/-- The device with its `features` field replaced and every other field kept. -/
def withFeatures (f : Nat) (d : gpu_device) : gpu_device :=
  { regs := d.regs, irq := d.irq, initialized := d.initialized, features := f }

/-! ## Sequences of calls -/

/-- One call of the driver interface on the device, with its arguments. -/
inductive Call where
  | init (base : Nat) (irq : Int)
  | reset
  | submit (job : Nat)
  | cleanup
deriving DecidableEq, Repr

/-- The device and bus after a call is made on device pointer `s.1` with bus `s.2`. -/
def step (hw : Nat → Nat) (c : Call) (s : Option gpu_device × Bus) : Option gpu_device × Bus :=
  match c with
  | Call.init base irq => (gpu_init hw s.1 base irq s.2).2
  | Call.reset => (gpu_reset hw s.1 s.2).2
  | Call.submit job => (gpu_submit_job s.1 job s.2).2
  | Call.cleanup => gpu_cleanup s.1 s.2

/-- The device and bus after a list of calls made one after the other. -/
def run (hw : Nat → Nat) : List Call → Option gpu_device × Bus → Option gpu_device × Bus
  | [], s => s
  | c :: cs, s => run hw cs (step hw c s)

/-- Whether a call is not a `gpu_init` that succeeds: true for every call other than
`gpu_init`, and for a `gpu_init` that returns a nonzero value. -/
def initFails (hw : Nat → Nat) (c : Call) (s : Option gpu_device × Bus) : Bool :=
  match c with
  | Call.init base irq => (gpu_init hw s.1 base irq s.2).1 != 0
  | _ => true

/-- Whether every `gpu_init` among a list of calls fails when the list is run from `s`. -/
def initsFail (hw : Nat → Nat) : List Call → Option gpu_device × Bus → Bool
  | [], _ => true
  | c :: cs, s => initFails hw c s && initsFail hw cs (step hw c s)

/-- Reset traffic on the window at `base`: a reset request or a read of the status
register. -/
def isResetTraffic (base : Nat) : Access → Bool
  | Access.write w o v => w = base && o = GPU_CMD_REG && v = 0x01
  | Access.read w o _ => w = base && o = GPU_STATUS_REG

/-- The log shows a completed initialization of the window at `base` that nothing but
reset traffic has followed: a reset request, status reads with bit 0 set, a status read
with bit 0 clear, the three configuration writes of `gpu_init`, then only reset traffic. -/
def Configured (base : Nat) (log : List Access) : Prop :=
  ∃ (pre polls : List Access) (v : Nat) (post : List Access),
    log = pre ++ (Access.write base GPU_CMD_REG 0x01 :: polls ++
        [Access.read base GPU_STATUS_REG v, Access.write base GPU_IRQ_CLEAR 0xFFFFFFFF,
          Access.write base GPU_IRQ_MASK 0x01, Access.write base GPU_PWR_OVERRIDE 0xFFFFFFFF]) ++
      post ∧
    v % 2 = 0 ∧
    (∀ a, a ∈ polls → ∃ u, a = Access.read base GPU_STATUS_REG u ∧ u % 2 = 1) ∧
    ∀ a, a ∈ post → isResetTraffic base a = true

/-- The register footprint of the driver: reads of the status register; writes of 0x01
to the command register and writes to the interrupt-clear, interrupt-mask and
power-override registers. -/
def inFootprint : Access → Bool
  | Access.read _ o _ => o = GPU_STATUS_REG
  | Access.write _ o v =>
    (o = GPU_CMD_REG && v = 0x01) || o = GPU_IRQ_CLEAR || o = GPU_IRQ_MASK ||
      o = GPU_PWR_OVERRIDE

/-- The byte offset of an access. -/
def Access.offset : Access → Nat
  | Access.read _ o _ => o
  | Access.write _ o _ => o

/-- The writes to the command register among some accesses, in order. -/
def commandWrites : List Access → List Access
  | [] => []
  | Access.write base offset value :: rest =>
    if offset = GPU_CMD_REG then Access.write base offset value :: commandWrites rest
    else commandWrites rest
  | Access.read _ _ _ :: rest => commandWrites rest

/-- The invariant of the states a run can reach: the device pointer is valid and, if the
device is Ready, its `regs` is non-null and the log shows a completed initialization of
that window followed by nothing but reset traffic. -/
def ReadyInv (s : Option gpu_device × Bus) : Prop :=
  ∃ d, s.1 = some d ∧ (d.initialized = true → d.regs ≠ 0 ∧ Configured d.regs s.2.log)

/-! ## The poll loop -/

theorem statusReads_zero (hw : Nat → Nat) (base s : Nat) : statusReads hw base s 0 = [] := rfl

theorem statusReads_succ (hw : Nat → Nat) (base s n : Nat) :
    statusReads hw base s (n + 1) =
      Access.read base GPU_STATUS_REG (hw s % 2 ^ 32) :: statusReads hw base (s + 1) n := by
  unfold statusReads
  rw [List.range_succ_eq_map, List.map_cons, List.map_map]
  congr 1
  apply List.map_congr_left
  intro i _
  simp only [Function.comp, Nat.succ_eq_add_one]
  rw [Nat.add_assoc, Nat.add_comm 1 i]

theorem statusReads_length (hw : Nat → Nat) (base s n : Nat) :
    (statusReads hw base s n).length = n := by
  simp [statusReads]

theorem afterPolls_zero (hw : Nat → Nat) (base : Nat) (b : Bus) : afterPolls hw base b 0 = b := by
  simp [afterPolls, statusReads_zero]

theorem afterPolls_read (hw : Nat → Nat) (d : gpu_device) (b : Bus) (n : Nat) :
    afterPolls hw d.regs (gpu_read32 hw d GPU_STATUS_REG b).2 n = afterPolls hw d.regs b (n + 1) := by
  simp [afterPolls, gpu_read32, statusReads_succ, Nat.add_assoc, Nat.add_comm 1 n]

theorem poll_succ_clear (hw : Nat → Nat) (d : gpu_device) (n : Nat) (b : Bus)
    (h : hw b.reads % 2 = 0) :
    gpu_reset_poll hw d (n + 1) b = (0, afterPolls hw d.regs b 1) := by
  have hb : hw b.reads % 4294967296 % 2 = hw b.reads % 2 := Nat.mod_mod_of_dvd _ (by norm_num)
  rw [← afterPolls_read, afterPolls_zero]
  simp [gpu_reset_poll, gpu_read32, hb, h]

theorem poll_succ_busy (hw : Nat → Nat) (d : gpu_device) (n : Nat) (b : Bus)
    (h : hw b.reads % 2 = 1) :
    gpu_reset_poll hw d (n + 1) b = gpu_reset_poll hw d n (gpu_read32 hw d GPU_STATUS_REG b).2 := by
  have hb : hw b.reads % 4294967296 % 2 = hw b.reads % 2 := Nat.mod_mod_of_dvd _ (by norm_num)
  simp [gpu_reset_poll, gpu_read32, hb, h]

/-- What the poll loop does, in full: either some read among the first `n` shows bit 0
clear, and the loop returns `0` right after the first such read, or all `n` reads show
bit 0 set and the loop returns `-1` after exactly `n` reads. -/
theorem poll_spec (hw : Nat → Nat) (d : gpu_device) (n : Nat) (b : Bus) :
    (∃ k, k < n ∧ (∀ j, j < k → hw (b.reads + j) % 2 = 1) ∧ hw (b.reads + k) % 2 = 0 ∧
        gpu_reset_poll hw d n b = (0, afterPolls hw d.regs b (k + 1))) ∨
      ((∀ j, j < n → hw (b.reads + j) % 2 = 1) ∧
        gpu_reset_poll hw d n b = (-1, afterPolls hw d.regs b n)) := by
  induction n generalizing b with
  | zero =>
    right
    exact ⟨fun j hj => absurd hj (Nat.not_lt_zero j), by simp [gpu_reset_poll, afterPolls_zero]⟩
  | succ n ih =>
    rcases Nat.mod_two_eq_zero_or_one (hw b.reads) with h0 | h1
    · left
      exact ⟨0, Nat.succ_pos n, fun j hj => absurd hj (Nat.not_lt_zero j), by simpa using h0,
        poll_succ_clear hw d n b h0⟩
    · have hreads : (gpu_read32 hw d GPU_STATUS_REG b).2.reads = b.reads + 1 := rfl
      rw [poll_succ_busy hw d n b h1]
      rcases ih (gpu_read32 hw d GPU_STATUS_REG b).2 with ⟨k, hk, hbusy, hclear, hres⟩ | ⟨hbusy, hres⟩
      · left
        refine ⟨k + 1, Nat.succ_lt_succ hk, ?_, ?_, ?_⟩
        · intro j hj
          cases j with
          | zero => simpa using h1
          | succ j =>
            have := hbusy j (Nat.lt_of_succ_lt_succ hj)
            rw [hreads] at this
            rw [Nat.add_comm j 1, ← Nat.add_assoc]
            exact this
        · rw [hreads] at hclear
          rw [Nat.add_comm k 1, ← Nat.add_assoc]
          exact hclear
        · rw [hres, afterPolls_read]
      · right
        refine ⟨?_, ?_⟩
        · intro j hj
          cases j with
          | zero => simpa using h1
          | succ j =>
            have := hbusy j (Nat.lt_of_succ_lt_succ hj)
            rw [hreads] at this
            rw [Nat.add_comm j 1, ← Nat.add_assoc]
            exact this
        · rw [hres, afterPolls_read]

theorem poll_all_busy (hw : Nat → Nat) (d : gpu_device) (n : Nat) (b : Bus)
    (h : ∀ j, j < n → hw (b.reads + j) % 2 = 1) :
    gpu_reset_poll hw d n b = (-1, afterPolls hw d.regs b n) := by
  rcases poll_spec hw d n b with ⟨k, hk, _, hclear, _⟩ | ⟨_, hres⟩
  · rw [h k hk] at hclear
    exact absurd hclear (by decide)
  · exact hres

theorem poll_first_clear (hw : Nat → Nat) (d : gpu_device) (n k : Nat) (b : Bus) (hk : k < n)
    (hbusy : ∀ j, j < k → hw (b.reads + j) % 2 = 1) (hclear : hw (b.reads + k) % 2 = 0) :
    gpu_reset_poll hw d n b = (0, afterPolls hw d.regs b (k + 1)) := by
  rcases poll_spec hw d n b with ⟨k', _, hbusy', hclear', hres⟩ | ⟨hall, _⟩
  · have hkk : k' = k := by
      rcases Nat.lt_trichotomy k' k with hlt | heq | hgt
      · rw [hbusy k' hlt] at hclear'
        exact absurd hclear' (by decide)
      · exact heq
      · rw [hbusy' k hgt] at hclear
        exact absurd hclear (by decide)
    rw [hres, hkk]
  · rw [hall k hk] at hclear
    exact absurd hclear (by decide)

/-! ## The access log -/

theorem performed_append (b : Bus) (r : Nat) (xs : List Access) :
    performed b { reads := r, log := b.log ++ xs } = xs := by
  simp [performed]

theorem performed_self (b : Bus) : performed b b = [] := by
  simp [performed]

theorem writesOf_append (xs ys : List Access) :
    writesOf (xs ++ ys) = writesOf xs ++ writesOf ys := by
  induction xs with
  | nil => rfl
  | cons a xs ih => cases a <;> simp [writesOf, ih]

theorem readsOf_append (xs ys : List Access) :
    readsOf (xs ++ ys) = readsOf xs ++ readsOf ys := by
  induction xs with
  | nil => rfl
  | cons a xs ih => cases a <;> simp [readsOf, ih]

theorem writesOf_statusReads (hw : Nat → Nat) (base s n : Nat) :
    writesOf (statusReads hw base s n) = [] := by
  induction n generalizing s with
  | zero => rfl
  | succ n ih => rw [statusReads_succ, writesOf, ih]

theorem readsOf_statusReads (hw : Nat → Nat) (base s n : Nat) :
    readsOf (statusReads hw base s n) = statusReads hw base s n := by
  induction n generalizing s with
  | zero => rfl
  | succ n ih => rw [statusReads_succ, readsOf, ih]

/-! ## `gpu_reset` and `gpu_init` in terms of the poll loop -/

theorem afterPolls_write (hw : Nat → Nat) (d : gpu_device) (b : Bus) (n : Nat) :
    afterPolls hw d.regs (gpu_write32 d GPU_CMD_REG 0x01 b) n =
      { reads := b.reads + n,
        log := b.log ++ Access.write d.regs GPU_CMD_REG 0x01 :: statusReads hw d.regs b.reads n } := by
  simp [afterPolls, gpu_write32]

theorem gpu_reset_all_busy (hw : Nat → Nat) (d : gpu_device) (b : Bus)
    (h : ∀ j, j < 1000 → hw (b.reads + j) % 2 = 1) :
    gpu_reset hw (some d) b =
      (-1, some d,
        { reads := b.reads + 1000,
          log := b.log ++
            Access.write d.regs GPU_CMD_REG 0x01 :: statusReads hw d.regs b.reads 1000 }) := by
  have hp := poll_all_busy hw d 1000 (gpu_write32 d GPU_CMD_REG 0x01 b) h
  rw [afterPolls_write] at hp
  simp only [gpu_reset, hp]

theorem gpu_reset_first_clear (hw : Nat → Nat) (d : gpu_device) (b : Bus) (k : Nat)
    (hk : k < 1000) (hbusy : ∀ j, j < k → hw (b.reads + j) % 2 = 1)
    (hclear : hw (b.reads + k) % 2 = 0) :
    gpu_reset hw (some d) b =
      (0, some d,
        { reads := b.reads + (k + 1),
          log := b.log ++
            Access.write d.regs GPU_CMD_REG 0x01 :: statusReads hw d.regs b.reads (k + 1) }) := by
  have hp := poll_first_clear hw d 1000 k (gpu_write32 d GPU_CMD_REG 0x01 b) hk hbusy hclear
  rw [afterPolls_write] at hp
  simp only [gpu_reset, hp]

theorem gpu_init_all_busy (hw : Nat → Nat) (d : gpu_device) (base : Nat) (irq : Int) (b : Bus)
    (hbase : base ≠ 0) (h : ∀ j, j < 1000 → hw (b.reads + j) % 2 = 1) :
    gpu_init hw (some d) base irq b =
      (-1, some { regs := base, irq := irq, initialized := false, features := d.features },
        { reads := b.reads + 1000,
          log := b.log ++
            Access.write base GPU_CMD_REG 0x01 :: statusReads hw base b.reads 1000 }) := by
  simp [gpu_init, hbase, gpu_reset_all_busy hw _ b h]

theorem gpu_init_first_clear (hw : Nat → Nat) (d : gpu_device) (base : Nat) (irq : Int) (b : Bus)
    (k : Nat) (hbase : base ≠ 0) (hk : k < 1000)
    (hbusy : ∀ j, j < k → hw (b.reads + j) % 2 = 1) (hclear : hw (b.reads + k) % 2 = 0) :
    gpu_init hw (some d) base irq b =
      (0, some { regs := base, irq := irq, initialized := true, features := d.features },
        { reads := b.reads + (k + 1),
          log := b.log ++
            (Access.write base GPU_CMD_REG 0x01 :: statusReads hw base b.reads (k + 1) ++
              [Access.write base GPU_IRQ_CLEAR 0xFFFFFFFF, Access.write base GPU_IRQ_MASK 0x01,
                Access.write base GPU_PWR_OVERRIDE 0xFFFFFFFF]) }) := by
  simp [gpu_init, hbase, gpu_reset_first_clear hw _ b k hk hbusy hclear, gpu_write32]

/-- Every run of `gpu_reset` on a valid device pointer is one of two: success right
after the first status read with bit 0 clear, or failure after 1000 busy reads. -/
theorem gpu_reset_cases (hw : Nat → Nat) (d : gpu_device) (b : Bus) :
    (∃ k, k < 1000 ∧ (∀ j, j < k → hw (b.reads + j) % 2 = 1) ∧ hw (b.reads + k) % 2 = 0 ∧
        gpu_reset hw (some d) b =
          (0, some d,
            { reads := b.reads + (k + 1),
              log := b.log ++
                Access.write d.regs GPU_CMD_REG 0x01 ::
                  statusReads hw d.regs b.reads (k + 1) })) ∨
      ((∀ j, j < 1000 → hw (b.reads + j) % 2 = 1) ∧
        gpu_reset hw (some d) b =
          (-1, some d,
            { reads := b.reads + 1000,
              log := b.log ++
                Access.write d.regs GPU_CMD_REG 0x01 :: statusReads hw d.regs b.reads 1000 })) := by
  rcases poll_spec hw d 1000 (gpu_write32 d GPU_CMD_REG 0x01 b) with
    ⟨k, hk, hbusy, hclear, _⟩ | ⟨hbusy, _⟩
  · exact Or.inl ⟨k, hk, hbusy, hclear, gpu_reset_first_clear hw d b k hk hbusy hclear⟩
  · exact Or.inr ⟨hbusy, gpu_reset_all_busy hw d b hbusy⟩

theorem mem_writesOf (base offset value : Nat) (xs : List Access)
    (h : Access.write base offset value ∈ xs) :
    Access.write base offset value ∈ writesOf xs := by
  induction xs with
  | nil => simp at h
  | cons a xs ih =>
    cases a with
    | read b o v =>
      rcases List.mem_cons.mp h with h1 | h1
      · cases h1
      · exact ih h1
    | write b o v =>
      rcases List.mem_cons.mp h with h1 | h1
      · rw [h1]
        exact List.mem_cons_self _ _
      · exact List.mem_cons_of_mem _ (ih h1)

theorem mem_statusReads (hw : Nat → Nat) (base s n : Nat) (a : Access)
    (h : a ∈ statusReads hw base s n) : ∃ v, a = Access.read base GPU_STATUS_REG v := by
  unfold statusReads at h
  rcases List.mem_map.mp h with ⟨i, _, hi⟩
  exact ⟨_, hi.symm⟩

/-- Every run of `gpu_init` with a non-null base on a valid device pointer is one of two:
success when the reset handshake sees bit 0 clear within 1000 reads, failure otherwise. -/
theorem gpu_init_cases (hw : Nat → Nat) (d : gpu_device) (base : Nat) (irq : Int) (b : Bus)
    (hbase : base ≠ 0) :
    (∃ k, k < 1000 ∧ (∀ j, j < k → hw (b.reads + j) % 2 = 1) ∧ hw (b.reads + k) % 2 = 0 ∧
        gpu_init hw (some d) base irq b =
          (0, some { regs := base, irq := irq, initialized := true, features := d.features },
            { reads := b.reads + (k + 1),
              log := b.log ++
                (Access.write base GPU_CMD_REG 0x01 :: statusReads hw base b.reads (k + 1) ++
                  [Access.write base GPU_IRQ_CLEAR 0xFFFFFFFF,
                    Access.write base GPU_IRQ_MASK 0x01,
                    Access.write base GPU_PWR_OVERRIDE 0xFFFFFFFF]) })) ∨
      ((∀ j, j < 1000 → hw (b.reads + j) % 2 = 1) ∧
        gpu_init hw (some d) base irq b =
          (-1, some { regs := base, irq := irq, initialized := false, features := d.features },
            { reads := b.reads + 1000,
              log := b.log ++
                Access.write base GPU_CMD_REG 0x01 :: statusReads hw base b.reads 1000 })) := by
  rcases poll_spec hw d 1000 b with ⟨k, hk, hbusy, hclear, _⟩ | ⟨hbusy, _⟩
  · exact Or.inl ⟨k, hk, hbusy, hclear, gpu_init_first_clear hw d base irq b k hbase hk hbusy hclear⟩
  · exact Or.inr ⟨hbusy, gpu_init_all_busy hw d base irq b hbase hbusy⟩

theorem gpu_submit_job_some (d : gpu_device) (job : Nat) (b : Bus) :
    gpu_submit_job (some d) job b =
      (if d.initialized = true ∧ job ≠ 0 then 0 else -1, some d, b) := by
  unfold gpu_submit_job
  cases hi : d.initialized <;> by_cases hj : job = 0 <;> simp [hj, hi]

/-! ## Claims -/

/-- C1: when `base` is non-null and the first status read of the call has bit 0 clear,
`gpu_init` returns `0`, leaves the device with `regs = base`, `irq = irq` and
`initialized = true`, and performs exactly the writes command := 0x01,
interrupt-clear := 0xFFFFFFFF, interrupt-mask := 0x01, power-override := 0xFFFFFFFF in
that order (after one status read that follows the command write), so that
the last values seen in those three registers are 0xFFFFFFFF, 0x01 and 0xFFFFFFFF. -/
theorem gpu_init_ready_write_sequence (hw : Nat → Nat) (d : gpu_device) (base : Nat)
    (irq : Int) (b : Bus) (hbase : base ≠ 0) (hclear : hw b.reads % 2 = 0) :
    gpu_init hw (some d) base irq b =
        (0, some { regs := base, irq := irq, initialized := true, features := d.features },
          { reads := b.reads + 1,
            log := b.log ++
              [Access.write base GPU_CMD_REG 0x01,
                Access.read base GPU_STATUS_REG (hw b.reads % 2 ^ 32),
                Access.write base GPU_IRQ_CLEAR 0xFFFFFFFF,
                Access.write base GPU_IRQ_MASK 0x01,
                Access.write base GPU_PWR_OVERRIDE 0xFFFFFFFF] }) ∧
      writesOf (performed b (gpu_init hw (some d) base irq b).2.2) =
        [Access.write base GPU_CMD_REG 0x01, Access.write base GPU_IRQ_CLEAR 0xFFFFFFFF,
          Access.write base GPU_IRQ_MASK 0x01, Access.write base GPU_PWR_OVERRIDE 0xFFFFFFFF] ∧
      lastWritten base GPU_IRQ_MASK (performed b (gpu_init hw (some d) base irq b).2.2) =
        some 0x01 ∧
      lastWritten base GPU_PWR_OVERRIDE (performed b (gpu_init hw (some d) base irq b).2.2) =
        some 0xFFFFFFFF ∧
      lastWritten base GPU_IRQ_CLEAR (performed b (gpu_init hw (some d) base irq b).2.2) =
        some 0xFFFFFFFF := by
  have h := gpu_init_first_clear hw d base irq b 0 hbase (by decide)
    (fun j hj => absurd hj (Nat.not_lt_zero j)) (by simpa using hclear)
  rw [statusReads_succ, statusReads_zero] at h
  rw [h]
  refine ⟨rfl, ?_, ?_, ?_, ?_⟩ <;>
    simp [performed, writesOf, lastWritten, GPU_CMD_REG, GPU_IRQ_CLEAR, GPU_IRQ_MASK,
      GPU_PWR_OVERRIDE]

/-- Witness for C1: the base of the header, interrupt 97, hardware that is idle at once. -/
theorem gpu_init_ready_write_sequence_witness :
    GPU_BASE_ADDR ≠ 0 ∧ (fun _ : Nat => 0) (Bus.mk 0 []).reads % 2 = 0 ∧
      gpu_init (fun _ => 0) (some ⟨0, 0, false, 0⟩) GPU_BASE_ADDR 97 ⟨0, []⟩ =
        (0, some ⟨GPU_BASE_ADDR, 97, true, 0⟩,
          ⟨1, [Access.write GPU_BASE_ADDR 0x030 0x01, Access.read GPU_BASE_ADDR 0x034 0,
            Access.write GPU_BASE_ADDR 0x024 0xFFFFFFFF, Access.write GPU_BASE_ADDR 0x028 0x01,
            Access.write GPU_BASE_ADDR 0x054 0xFFFFFFFF]⟩) :=
  ⟨by decide, rfl,
    (gpu_init_ready_write_sequence (fun _ => 0) ⟨0, 0, false, 0⟩ GPU_BASE_ADDR 97 ⟨0, []⟩
      (by decide) rfl).1⟩

/-- C2, counterexample: on the header's base with hardware that is idle at once, the
power-up write of `gpu_init` and the power-down write of `gpu_cleanup` both land at
byte offset 0x054; neither operation writes at 0x050. -/
theorem power_override_offset_counterexample :
    performed ⟨0, []⟩
        (gpu_init (fun _ => 0) (some ⟨0, 0, false, 0⟩) GPU_BASE_ADDR 97 ⟨0, []⟩).2.2 =
        [Access.write GPU_BASE_ADDR 0x030 0x01, Access.read GPU_BASE_ADDR 0x034 0,
          Access.write GPU_BASE_ADDR 0x024 0xFFFFFFFF, Access.write GPU_BASE_ADDR 0x028 0x01,
          Access.write GPU_BASE_ADDR 0x054 0xFFFFFFFF] ∧
      Access.write GPU_BASE_ADDR 0x050 0xFFFFFFFF ∉
        performed ⟨0, []⟩
          (gpu_init (fun _ => 0) (some ⟨0, 0, false, 0⟩) GPU_BASE_ADDR 97 ⟨0, []⟩).2.2 ∧
      performed ⟨0, []⟩ (gpu_cleanup (some ⟨GPU_BASE_ADDR, 97, true, 0⟩) ⟨0, []⟩).2 =
        [Access.write GPU_BASE_ADDR 0x028 0, Access.write GPU_BASE_ADDR 0x024 0xFFFFFFFF,
          Access.write GPU_BASE_ADDR 0x054 0] ∧
      Access.write GPU_BASE_ADDR 0x050 0 ∉
        performed ⟨0, []⟩ (gpu_cleanup (some ⟨GPU_BASE_ADDR, 97, true, 0⟩) ⟨0, []⟩).2 := by
  decide

/-- C2, amended: for every status stream and however many polls the handshake takes,
the reset request is written at 0x030 and every poll reads 0x034 (`gpu_reset` performs
that one write, then its status reads, and nothing else); `gpu_init` with a non-null base
makes the same accesses and, when the handshake succeeds, then clears pending interrupts
at 0x024, writes the interrupt mask at 0x028 and writes the power-up value 0xFFFFFFFF at
0x054 (with a null base it makes no access); `gpu_cleanup` on an initialized device
writes the mask at 0x028, clears at 0x024 and writes the power-down value 0 at 0x054 (on
any other device it makes no access). The two cases of the stream, a first read with
bit 0 clear among the first 1000 or none, cover every stream. -/
theorem register_access_offsets (hw : Nat → Nat) (d : gpu_device) (base : Nat) (irq : Int)
    (b : Bus) :
    ((∃ k, k < 1000 ∧ (∀ j, j < k → hw (b.reads + j) % 2 = 1) ∧ hw (b.reads + k) % 2 = 0) ∨
        ∀ j, j < 1000 → hw (b.reads + j) % 2 = 1) ∧
      (∀ k, k < 1000 → (∀ j, j < k → hw (b.reads + j) % 2 = 1) → hw (b.reads + k) % 2 = 0 →
        performed b (gpu_reset hw (some d) b).2.2 =
          Access.write d.regs 0x030 0x01 ::
            (List.range (k + 1)).map fun i =>
              Access.read d.regs 0x034 (hw (b.reads + i) % 2 ^ 32)) ∧
      ((∀ j, j < 1000 → hw (b.reads + j) % 2 = 1) →
        performed b (gpu_reset hw (some d) b).2.2 =
          Access.write d.regs 0x030 0x01 ::
            (List.range 1000).map fun i =>
              Access.read d.regs 0x034 (hw (b.reads + i) % 2 ^ 32)) ∧
      (base = 0 → performed b (gpu_init hw (some d) base irq b).2.2 = []) ∧
      (base ≠ 0 →
        ∀ k, k < 1000 → (∀ j, j < k → hw (b.reads + j) % 2 = 1) → hw (b.reads + k) % 2 = 0 →
          performed b (gpu_init hw (some d) base irq b).2.2 =
            (Access.write base 0x030 0x01 ::
                (List.range (k + 1)).map fun i =>
                  Access.read base 0x034 (hw (b.reads + i) % 2 ^ 32)) ++
              [Access.write base 0x024 0xFFFFFFFF, Access.write base 0x028 0x01,
                Access.write base 0x054 0xFFFFFFFF]) ∧
      (base ≠ 0 → (∀ j, j < 1000 → hw (b.reads + j) % 2 = 1) →
        performed b (gpu_init hw (some d) base irq b).2.2 =
          Access.write base 0x030 0x01 ::
            (List.range 1000).map fun i =>
              Access.read base 0x034 (hw (b.reads + i) % 2 ^ 32)) ∧
      (d.initialized = true →
        performed b (gpu_cleanup (some d) b).2 =
          [Access.write d.regs 0x028 0, Access.write d.regs 0x024 0xFFFFFFFF,
            Access.write d.regs 0x054 0]) ∧
      (d.initialized = false → performed b (gpu_cleanup (some d) b).2 = []) := by
  refine ⟨?_, ?_, ?_, ?_, ?_, ?_, ?_, ?_⟩
  · rcases poll_spec hw d 1000 b with ⟨k, hk, hbusy, hclear, _⟩ | ⟨hbusy, _⟩
    · exact Or.inl ⟨k, hk, hbusy, hclear⟩
    · exact Or.inr hbusy
  · intro k hk hbusy hclear
    rw [gpu_reset_first_clear hw d b k hk hbusy hclear, performed_append]
    rfl
  · intro hbusy
    rw [gpu_reset_all_busy hw d b hbusy, performed_append]
    rfl
  · intro hbase
    rw [hbase]
    simp [gpu_init, performed]
  · intro hbase k hk hbusy hclear
    rw [gpu_init_first_clear hw d base irq b k hbase hk hbusy hclear, performed_append]
    rfl
  · intro hbase hbusy
    rw [gpu_init_all_busy hw d base irq b hbase hbusy, performed_append]
    rfl
  · intro hready
    simp [gpu_cleanup, hready, gpu_write32, performed, GPU_IRQ_MASK, GPU_IRQ_CLEAR,
      GPU_PWR_OVERRIDE]
  · intro hnot
    simp [gpu_cleanup, hnot, performed]

/-- Witness for C2 (amended): the status is busy three times and then idle, so the
handshake of `gpu_init` takes four polls, all at 0x034, and the power-up write still goes
to 0x054; the device given was initialized, and its cleanup powers down at 0x054. -/
theorem register_access_offsets_witness :
    GPU_BASE_ADDR ≠ 0 ∧
      performed ⟨0, []⟩
          (gpu_init (fun n => if n < 3 then 1 else 0) (some ⟨GPU_BASE_ADDR, 97, true, 0⟩)
            GPU_BASE_ADDR 97 ⟨0, []⟩).2.2 =
        [Access.write GPU_BASE_ADDR 0x030 0x01, Access.read GPU_BASE_ADDR 0x034 1,
          Access.read GPU_BASE_ADDR 0x034 1, Access.read GPU_BASE_ADDR 0x034 1,
          Access.read GPU_BASE_ADDR 0x034 0, Access.write GPU_BASE_ADDR 0x024 0xFFFFFFFF,
          Access.write GPU_BASE_ADDR 0x028 0x01, Access.write GPU_BASE_ADDR 0x054 0xFFFFFFFF] ∧
      performed ⟨0, []⟩ (gpu_cleanup (some ⟨GPU_BASE_ADDR, 97, true, 0⟩) ⟨0, []⟩).2 =
        [Access.write GPU_BASE_ADDR 0x028 0, Access.write GPU_BASE_ADDR 0x024 0xFFFFFFFF,
          Access.write GPU_BASE_ADDR 0x054 0] :=
  ⟨by decide,
    (register_access_offsets (fun n => if n < 3 then 1 else 0) ⟨GPU_BASE_ADDR, 97, true, 0⟩
      GPU_BASE_ADDR 97 ⟨0, []⟩).2.2.2.2.1 (by decide) 3 (by decide) (by decide) (by decide),
    (register_access_offsets (fun n => if n < 3 then 1 else 0) ⟨GPU_BASE_ADDR, 97, true, 0⟩
      GPU_BASE_ADDR 97 ⟨0, []⟩).2.2.2.2.2.2.1 rfl⟩

/-- C3: when `base` is non-null and each of the first 1000 status reads of the call has
bit 0 set, `gpu_init` fails (returns `-1`) whatever the device held before, the device is
left with `initialized = false`, and the call performed the reset request to the command
register followed by exactly those 1000 status reads: its only write is the reset
request, and nothing is written to the interrupt-clear, interrupt-mask or power-override
register. -/
theorem gpu_init_reset_timeout (hw : Nat → Nat) (d : gpu_device) (base : Nat) (irq : Int)
    (b : Bus) (hbase : base ≠ 0) (hbusy : ∀ k, k < 1000 → hw (b.reads + k) % 2 = 1) :
    (gpu_init hw (some d) base irq b).1 = -1 ∧
      (gpu_init hw (some d) base irq b).2.1 =
        some { regs := base, irq := irq, initialized := false, features := d.features } ∧
      performed b (gpu_init hw (some d) base irq b).2.2 =
        Access.write base GPU_CMD_REG 0x01 :: statusReads hw base b.reads 1000 ∧
      writesOf (performed b (gpu_init hw (some d) base irq b).2.2) =
        [Access.write base GPU_CMD_REG 0x01] ∧
      ∀ w v, Access.write w GPU_IRQ_CLEAR v ∉ performed b (gpu_init hw (some d) base irq b).2.2 ∧
        Access.write w GPU_IRQ_MASK v ∉ performed b (gpu_init hw (some d) base irq b).2.2 ∧
        Access.write w GPU_PWR_OVERRIDE v ∉
          performed b (gpu_init hw (some d) base irq b).2.2 := by
  have hw1 : writesOf (performed b (gpu_init hw (some d) base irq b).2.2) =
      [Access.write base GPU_CMD_REG 0x01] := by
    rw [gpu_init_all_busy hw d base irq b hbase hbusy, performed_append, writesOf,
      writesOf_statusReads]
  refine ⟨?_, ?_, ?_, hw1, ?_⟩
  · rw [gpu_init_all_busy hw d base irq b hbase hbusy]
  · rw [gpu_init_all_busy hw d base irq b hbase hbusy]
  · rw [gpu_init_all_busy hw d base irq b hbase hbusy, performed_append]
  · intro w v
    refine ⟨?_, ?_, ?_⟩ <;>
    · intro hmem
      have hm := mem_writesOf _ _ _ _ hmem
      rw [hw1] at hm
      simp [GPU_CMD_REG, GPU_IRQ_CLEAR, GPU_IRQ_MASK, GPU_PWR_OVERRIDE] at hm

/-- Witness for C3: a device that was Ready, hardware whose busy bit never clears. -/
theorem gpu_init_reset_timeout_witness :
    GPU_BASE_ADDR ≠ 0 ∧ (∀ k, k < 1000 → (fun _ : Nat => 1) ((Bus.mk 0 []).reads + k) % 2 = 1) ∧
      (gpu_init (fun _ => 1) (some ⟨GPU_BASE_ADDR, 97, true, 0⟩) GPU_BASE_ADDR 97 ⟨0, []⟩).1 = -1 ∧
      (gpu_init (fun _ => 1) (some ⟨GPU_BASE_ADDR, 97, true, 0⟩) GPU_BASE_ADDR 97 ⟨0, []⟩).2.1 =
        some ⟨GPU_BASE_ADDR, 97, false, 0⟩ :=
  ⟨by decide, fun _ _ => rfl,
    (gpu_init_reset_timeout (fun _ => 1) ⟨GPU_BASE_ADDR, 97, true, 0⟩ GPU_BASE_ADDR 97 ⟨0, []⟩
      (by decide) (fun _ _ => rfl)).1,
    (gpu_init_reset_timeout (fun _ => 1) ⟨GPU_BASE_ADDR, 97, true, 0⟩ GPU_BASE_ADDR 97 ⟨0, []⟩
      (by decide) (fun _ _ => rfl)).2.1⟩

/-- C4, counterexample: `gpu_init` with a null base on a Ready device returns `-1` and
the device is still Ready (`initialized = true`) afterwards, not Uninitialized. -/
theorem gpu_init_null_base_counterexample :
    gpu_init (fun _ => 0) (some ⟨GPU_BASE_ADDR, 97, true, 0⟩) 0 97 ⟨0, []⟩ =
        (-1, some ⟨GPU_BASE_ADDR, 97, true, 0⟩, ⟨0, []⟩) ∧
      Option.map gpu_device.initialized
          (gpu_init (fun _ => 0) (some ⟨GPU_BASE_ADDR, 97, true, 0⟩) 0 97 ⟨0, []⟩).2.1 ≠
        some false := by
  decide

/-- C4, amended: `gpu_init` with a null base always fails (returns `-1`) and leaves the
state flag as it was before the call: an Uninitialized device stays Uninitialized and a
Ready device stays Ready. -/
theorem gpu_init_null_base (hw : Nat → Nat) (d : gpu_device) (irq : Int) (b : Bus) :
    (gpu_init hw (some d) 0 irq b).1 = -1 ∧
      Option.map gpu_device.initialized (gpu_init hw (some d) 0 irq b).2.1 =
        some d.initialized := by
  simp [gpu_init]

/-- C5: when bit 0 of the status register is set on every read, `gpu_reset` fails
(returns `-1`) after one write of 0x01 to the command register followed by exactly 1000
reads, each of the status register. -/
theorem gpu_reset_timeout_after_1000_polls (hw : Nat → Nat) (d : gpu_device) (b : Bus)
    (hbusy : ∀ n, hw n % 2 = 1) :
    (gpu_reset hw (some d) b).1 = -1 ∧
      performed b (gpu_reset hw (some d) b).2.2 =
        Access.write d.regs GPU_CMD_REG 0x01 :: statusReads hw d.regs b.reads 1000 ∧
      writesOf (performed b (gpu_reset hw (some d) b).2.2) =
        [Access.write d.regs GPU_CMD_REG 0x01] ∧
      (readsOf (performed b (gpu_reset hw (some d) b).2.2)).length = 1000 ∧
      (∀ a, a ∈ readsOf (performed b (gpu_reset hw (some d) b).2.2) →
        ∃ v, a = Access.read d.regs GPU_STATUS_REG v) ∧
      (gpu_reset hw (some d) b).2.2.reads = b.reads + 1000 := by
  have h := gpu_reset_all_busy hw d b (fun j _ => hbusy (b.reads + j))
  rw [h, performed_append]
  refine ⟨rfl, rfl, ?_, ?_, ?_, rfl⟩
  · rw [writesOf, writesOf_statusReads]
  · rw [readsOf, readsOf_statusReads, statusReads_length]
  · intro a ha
    rw [readsOf, readsOf_statusReads] at ha
    exact mem_statusReads hw d.regs b.reads 1000 a ha

/-- Witness for C5: hardware that answers every read with the busy bit alone. -/
theorem gpu_reset_timeout_after_1000_polls_witness :
    (∀ n, (fun _ : Nat => 1) n % 2 = 1) ∧
      (gpu_reset (fun _ => 1) (some ⟨GPU_BASE_ADDR, 97, false, 0⟩) ⟨0, []⟩).1 = -1 ∧
      (gpu_reset (fun _ => 1) (some ⟨GPU_BASE_ADDR, 97, false, 0⟩) ⟨0, []⟩).2.2.reads =
        0 + 1000 :=
  ⟨fun _ => rfl,
    (gpu_reset_timeout_after_1000_polls (fun _ => 1) ⟨GPU_BASE_ADDR, 97, false, 0⟩ ⟨0, []⟩
      (fun _ => rfl)).1,
    (gpu_reset_timeout_after_1000_polls (fun _ => 1) ⟨GPU_BASE_ADDR, 97, false, 0⟩ ⟨0, []⟩
      (fun _ => rfl)).2.2.2.2.2⟩

/-- C6: `gpu_reset` returns `0` exactly when one of the first 1000 status values of the
call has bit 0 clear (and `-1` otherwise); when the first such value is read number `k`
counted from 0, it returns after exactly `k + 1` status reads; and two status streams
that agree on bit 0 give the same result after the same number of reads. -/
theorem gpu_reset_success_iff (hw : Nat → Nat) (d : gpu_device) (b : Bus) :
    ((gpu_reset hw (some d) b).1 = 0 ↔ ∃ k, k < 1000 ∧ hw (b.reads + k) % 2 = 0) ∧
      ((gpu_reset hw (some d) b).1 = 0 ∨ (gpu_reset hw (some d) b).1 = -1) ∧
      (∀ k, k < 1000 → (∀ j, j < k → hw (b.reads + j) % 2 = 1) → hw (b.reads + k) % 2 = 0 →
        (gpu_reset hw (some d) b).1 = 0 ∧
          performed b (gpu_reset hw (some d) b).2.2 =
            Access.write d.regs GPU_CMD_REG 0x01 :: statusReads hw d.regs b.reads (k + 1) ∧
          (readsOf (performed b (gpu_reset hw (some d) b).2.2)).length = k + 1 ∧
          (gpu_reset hw (some d) b).2.2.reads = b.reads + (k + 1)) ∧
      ∀ hw2 : Nat → Nat, (∀ n, hw2 n % 2 = hw n % 2) →
        (gpu_reset hw2 (some d) b).1 = (gpu_reset hw (some d) b).1 ∧
          (gpu_reset hw2 (some d) b).2.2.reads = (gpu_reset hw (some d) b).2.2.reads := by
  refine ⟨?_, ?_, ?_, ?_⟩
  · rcases gpu_reset_cases hw d b with ⟨k, hk, _, hclear, hres⟩ | ⟨hbusy, hres⟩
    · rw [hres]
      exact ⟨fun _ => ⟨k, hk, hclear⟩, fun _ => rfl⟩
    · rw [hres]
      constructor
      · intro h
        have hneg : (-1 : Int) = 0 := h
        exact absurd hneg (by decide)
      · rintro ⟨k, hk, hclear⟩
        rw [hbusy k hk] at hclear
        exact absurd hclear (by decide)
  · rcases gpu_reset_cases hw d b with ⟨k, _, _, _, hres⟩ | ⟨_, hres⟩
    · exact Or.inl (by rw [hres])
    · exact Or.inr (by rw [hres])
  · intro k hk hbusy hclear
    rw [gpu_reset_first_clear hw d b k hk hbusy hclear, performed_append]
    refine ⟨rfl, rfl, ?_, rfl⟩
    rw [readsOf, readsOf_statusReads, statusReads_length]
  · intro hw2 hagree
    rcases gpu_reset_cases hw d b with ⟨k, hk, hbusy, hclear, hres⟩ | ⟨hbusy, hres⟩
    · rw [hres, gpu_reset_first_clear hw2 d b k hk
        (fun j hj => by rw [hagree]; exact hbusy j hj) (by rw [hagree]; exact hclear)]
      exact ⟨rfl, rfl⟩
    · rw [hres, gpu_reset_all_busy hw2 d b (fun j hj => by rw [hagree]; exact hbusy j hj)]
      exact ⟨rfl, rfl⟩

/-- Witness for C6: the status is busy three times, then reads 0xFFFFFFFE (every bit but
bit 0 set); the reset returns `0` after exactly four reads. -/
theorem gpu_reset_success_iff_witness :
    (gpu_reset (fun n => if n < 3 then 1 else 0xFFFFFFFE) (some ⟨GPU_BASE_ADDR, 97, false, 0⟩)
          ⟨0, []⟩).1 = 0 ∧
      (gpu_reset (fun n => if n < 3 then 1 else 0xFFFFFFFE) (some ⟨GPU_BASE_ADDR, 97, false, 0⟩)
          ⟨0, []⟩).2.2.reads = 0 + (3 + 1) :=
  ⟨((gpu_reset_success_iff (fun n => if n < 3 then 1 else 0xFFFFFFFE)
      ⟨GPU_BASE_ADDR, 97, false, 0⟩ ⟨0, []⟩).2.2.1 3 (by decide) (by decide) (by decide)).1,
    ((gpu_reset_success_iff (fun n => if n < 3 then 1 else 0xFFFFFFFE)
      ⟨GPU_BASE_ADDR, 97, false, 0⟩ ⟨0, []⟩).2.2.1 3 (by decide) (by decide)
        (by decide)).2.2.2⟩

/-- C7: `gpu_reset`, whatever it returns, leaves the device exactly as it was (state
flag, regs, irq and features); `gpu_submit_job` answers after the reset as it would have
before it, so on an Uninitialized device it still fails for every job, and a Ready
device is still Ready. -/
theorem gpu_reset_preserves_device (hw : Nat → Nat) (d : gpu_device) (b : Bus) :
    (gpu_reset hw (some d) b).2.1 = some d ∧
      (∀ job, (gpu_submit_job (gpu_reset hw (some d) b).2.1 job (gpu_reset hw (some d) b).2.2).1 =
        (gpu_submit_job (some d) job b).1) ∧
      (d.initialized = false →
        ∀ job,
          (gpu_submit_job (gpu_reset hw (some d) b).2.1 job (gpu_reset hw (some d) b).2.2).1 =
            -1) ∧
      (d.initialized = true →
        Option.map gpu_device.initialized (gpu_reset hw (some d) b).2.1 = some true) := by
  have hdev : (gpu_reset hw (some d) b).2.1 = some d := rfl
  refine ⟨hdev, ?_, ?_, ?_⟩
  · intro job
    rw [hdev, gpu_submit_job_some, gpu_submit_job_some]
  · intro hinit job
    rw [hdev, gpu_submit_job_some]
    simp [hinit]
  · intro hinit
    rw [hdev]
    simp [hinit]

/-- Witness for C7: a reset that succeeds at once on an Uninitialized device; a
submission of a non-null job still fails. -/
theorem gpu_reset_preserves_device_witness :
    (gpu_reset (fun _ => 0) (some ⟨GPU_BASE_ADDR, 97, false, 0⟩) ⟨0, []⟩).2.1 =
        some ⟨GPU_BASE_ADDR, 97, false, 0⟩ ∧
      (gpu_submit_job (gpu_reset (fun _ => 0) (some ⟨GPU_BASE_ADDR, 97, false, 0⟩) ⟨0, []⟩).2.1 1
          (gpu_reset (fun _ => 0) (some ⟨GPU_BASE_ADDR, 97, false, 0⟩) ⟨0, []⟩).2.2).1 = -1 :=
  ⟨(gpu_reset_preserves_device (fun _ => 0) ⟨GPU_BASE_ADDR, 97, false, 0⟩ ⟨0, []⟩).1,
    (gpu_reset_preserves_device (fun _ => 0) ⟨GPU_BASE_ADDR, 97, false, 0⟩ ⟨0, []⟩).2.2.1 rfl 1⟩

/-- C8: `gpu_submit_job` returns `0` exactly when the device is Ready and the job is
non-null, and `-1` otherwise; in every case it leaves the device and the bus as they
were, performing no register access; so after any list of submissions the device is
unchanged, and a Ready device is still Ready. -/
theorem gpu_submit_job_gate (d : gpu_device) (job : Nat) (b : Bus) :
    ((gpu_submit_job (some d) job b).1 = 0 ↔ d.initialized = true ∧ job ≠ 0) ∧
      ((gpu_submit_job (some d) job b).1 = 0 ∨ (gpu_submit_job (some d) job b).1 = -1) ∧
      (gpu_submit_job (some d) job b).2 = (some d, b) ∧
      performed b (gpu_submit_job (some d) job b).2.2 = [] ∧
      ∀ jobs, submitAll (some d) b jobs = (some d, b) := by
  rw [gpu_submit_job_some]
  refine ⟨?_, ?_, rfl, performed_self b, ?_⟩
  · by_cases h : d.initialized = true ∧ job ≠ 0
    · simp [h]
    · simp [h]
  · by_cases h : d.initialized = true ∧ job ≠ 0
    · exact Or.inl (by simp [h])
    · exact Or.inr (by simp [h])
  · intro jobs
    induction jobs with
    | nil => rfl
    | cons j js ih =>
      rw [submitAll, gpu_submit_job_some]
      exact ih

/-- C10: for a non-null base and any irq, over hardware whose status shows bit 0 clear
within the first 1000 reads of the call, `gpu_init` succeeds, a `gpu_submit_job` with a
non-null job right after it succeeds, and the device is Ready after both calls. -/
theorem gpu_init_then_submit (hw : Nat → Nat) (d : gpu_device) (base : Nat) (irq : Int)
    (job : Nat) (b : Bus) (hbase : base ≠ 0) (hjob : job ≠ 0)
    (hidle : ∃ k, k < 1000 ∧ hw (b.reads + k) % 2 = 0) :
    (gpu_init hw (some d) base irq b).1 = 0 ∧
      (gpu_submit_job (gpu_init hw (some d) base irq b).2.1 job
          (gpu_init hw (some d) base irq b).2.2).1 = 0 ∧
      (gpu_submit_job (gpu_init hw (some d) base irq b).2.1 job
          (gpu_init hw (some d) base irq b).2.2).2.1 =
        some { regs := base, irq := irq, initialized := true, features := d.features } := by
  rcases gpu_init_cases hw d base irq b hbase with ⟨k, _, _, _, hres⟩ | ⟨hbusy, _⟩
  · rw [hres]
    refine ⟨rfl, ?_, ?_⟩
    · rw [gpu_submit_job_some]
      simp [hjob]
    · rw [gpu_submit_job_some]
  · rcases hidle with ⟨k, hk, hclear⟩
    rw [hbusy k hk] at hclear
    exact absurd hclear (by decide)

/-- Witness for C10: the status is busy three times and then idle; interrupt 97, job
handle 1. -/
theorem gpu_init_then_submit_witness :
    GPU_BASE_ADDR ≠ 0 ∧ (1 : Nat) ≠ 0 ∧
      (∃ k, k < 1000 ∧ (fun n : Nat => if n < 3 then 1 else 0) ((Bus.mk 0 []).reads + k) % 2 = 0) ∧
      (gpu_submit_job
          (gpu_init (fun n => if n < 3 then 1 else 0) (some ⟨0, 0, false, 0⟩) GPU_BASE_ADDR 97
            ⟨0, []⟩).2.1 1
          (gpu_init (fun n => if n < 3 then 1 else 0) (some ⟨0, 0, false, 0⟩) GPU_BASE_ADDR 97
            ⟨0, []⟩).2.2).2.1 = some ⟨GPU_BASE_ADDR, 97, true, 0⟩ :=
  ⟨by decide, by decide, ⟨3, by decide, by decide⟩,
    (gpu_init_then_submit (fun n => if n < 3 then 1 else 0) ⟨0, 0, false, 0⟩ GPU_BASE_ADDR 97 1
      ⟨0, []⟩ (by decide) (by decide) ⟨3, by decide, by decide⟩).2.2⟩

/-! ## `gpu_cleanup` -/

theorem gpu_cleanup_initialized (d : gpu_device) (b : Bus) (h : d.initialized = true) :
    gpu_cleanup (some d) b =
      (some { regs := d.regs, irq := d.irq, initialized := false, features := d.features },
        { reads := b.reads,
          log := b.log ++
            [Access.write d.regs GPU_IRQ_MASK 0, Access.write d.regs GPU_IRQ_CLEAR 0xFFFFFFFF,
              Access.write d.regs GPU_PWR_OVERRIDE 0] }) := by
  simp [gpu_cleanup, h, gpu_write32]

theorem gpu_cleanup_not_initialized (d : gpu_device) (b : Bus) (h : d.initialized = false) :
    gpu_cleanup (some d) b = (some d, b) := by
  simp [gpu_cleanup, h]

theorem gpu_init_null (hw : Nat → Nat) (d : gpu_device) (irq : Int) (b : Bus) :
    gpu_init hw (some d) 0 irq b = (-1, some d, b) := by
  simp [gpu_init]

/-- C11: on a Ready device `gpu_cleanup` performs exactly the three writes
interrupt-mask := 0, interrupt-clear := 0xFFFFFFFF, power-override := 0 in that order and
no read; it leaves the device with `initialized = false` (the flag value that stands for
ShutDown) and the other fields as they were, and `gpu_submit_job` then fails for every
job, a non-null one included. -/
theorem gpu_cleanup_ready (d : gpu_device) (b : Bus) (hready : d.initialized = true) :
    performed b (gpu_cleanup (some d) b).2 =
        [Access.write d.regs GPU_IRQ_MASK 0, Access.write d.regs GPU_IRQ_CLEAR 0xFFFFFFFF,
          Access.write d.regs GPU_PWR_OVERRIDE 0] ∧
      readsOf (performed b (gpu_cleanup (some d) b).2) = [] ∧
      (gpu_cleanup (some d) b).2.reads = b.reads ∧
      (gpu_cleanup (some d) b).1 =
        some { regs := d.regs, irq := d.irq, initialized := false, features := d.features } ∧
      ∀ job, (gpu_submit_job (gpu_cleanup (some d) b).1 job (gpu_cleanup (some d) b).2).1 = -1 := by
  rw [gpu_cleanup_initialized d b hready, performed_append]
  refine ⟨rfl, rfl, rfl, rfl, ?_⟩
  intro job
  rw [gpu_submit_job_some]
  simp

/-- Witness for C11: a Ready device on the header's base; job handle 1 is refused after
the cleanup. -/
theorem gpu_cleanup_ready_witness :
    (gpu_device.mk GPU_BASE_ADDR 97 true 0).initialized = true ∧
      performed ⟨0, []⟩ (gpu_cleanup (some ⟨GPU_BASE_ADDR, 97, true, 0⟩) ⟨0, []⟩).2 =
        [Access.write GPU_BASE_ADDR GPU_IRQ_MASK 0,
          Access.write GPU_BASE_ADDR GPU_IRQ_CLEAR 0xFFFFFFFF,
          Access.write GPU_BASE_ADDR GPU_PWR_OVERRIDE 0] ∧
      (gpu_submit_job (gpu_cleanup (some ⟨GPU_BASE_ADDR, 97, true, 0⟩) ⟨0, []⟩).1 1
        (gpu_cleanup (some ⟨GPU_BASE_ADDR, 97, true, 0⟩) ⟨0, []⟩).2).1 = -1 :=
  ⟨rfl, (gpu_cleanup_ready ⟨GPU_BASE_ADDR, 97, true, 0⟩ ⟨0, []⟩ rfl).1,
    (gpu_cleanup_ready ⟨GPU_BASE_ADDR, 97, true, 0⟩ ⟨0, []⟩ rfl).2.2.2.2 1⟩

/-- C12: on a device that is not Ready `gpu_cleanup` performs no register access and
returns the device with every field as it was (it has no result with which to report an
error). -/
theorem gpu_cleanup_not_ready (d : gpu_device) (b : Bus) (hnot : d.initialized = false) :
    gpu_cleanup (some d) b = (some d, b) ∧
      performed b (gpu_cleanup (some d) b).2 = [] := by
  rw [gpu_cleanup_not_initialized d b hnot]
  exact ⟨rfl, performed_self b⟩

/-- Witness for C12: a device that was never initialized, its `regs` still null. -/
theorem gpu_cleanup_not_ready_witness :
    (gpu_device.mk 0 0 false 0).initialized = false ∧
      gpu_cleanup (some ⟨0, 0, false, 0⟩) ⟨0, []⟩ = (some ⟨0, 0, false, 0⟩, ⟨0, []⟩) :=
  ⟨rfl, (gpu_cleanup_not_ready ⟨0, 0, false, 0⟩ ⟨0, []⟩ rfl).1⟩

/-- C13: `gpu_cleanup` is idempotent: for every device, a second call right after the
first returns the device and the bus (read count and access log) that the first call
left, and the second call performs no access. -/
theorem gpu_cleanup_idempotent (d : gpu_device) (b : Bus) :
    gpu_cleanup (gpu_cleanup (some d) b).1 (gpu_cleanup (some d) b).2 = gpu_cleanup (some d) b ∧
      performed (gpu_cleanup (some d) b).2
        (gpu_cleanup (gpu_cleanup (some d) b).1 (gpu_cleanup (some d) b).2).2 = [] := by
  have h : gpu_cleanup (gpu_cleanup (some d) b).1 (gpu_cleanup (some d) b).2 =
      gpu_cleanup (some d) b := by
    cases hi : d.initialized with
    | false => rw [gpu_cleanup_not_initialized d b hi, gpu_cleanup_not_initialized d b hi]
    | true =>
      rw [gpu_cleanup_initialized d b hi]
      exact gpu_cleanup_not_initialized _ _ rfl
  rw [h]
  exact ⟨rfl, performed_self _⟩

/-! ## Null base, failure, independence -/

/-- C18: `gpu_init` with a null base returns `-1` with the device (regs, irq, initialized,
features) and the bus exactly as they were, so it performs no register read or write; a
device that was Ready is still Ready and `gpu_submit_job` with a non-null job still
succeeds on it. -/
theorem gpu_init_null_base_atomic (hw : Nat → Nat) (d : gpu_device) (irq : Int) (b : Bus) :
    gpu_init hw (some d) 0 irq b = (-1, some d, b) ∧
      performed b (gpu_init hw (some d) 0 irq b).2.2 = [] ∧
      (gpu_init hw (some d) 0 irq b).2.2.reads = b.reads ∧
      (d.initialized = true →
        Option.map gpu_device.initialized (gpu_init hw (some d) 0 irq b).2.1 = some true ∧
          ∀ job, job ≠ 0 →
            (gpu_submit_job (gpu_init hw (some d) 0 irq b).2.1 job
              (gpu_init hw (some d) 0 irq b).2.2).1 = 0) := by
  rw [gpu_init_null]
  refine ⟨rfl, performed_self b, rfl, ?_⟩
  intro hready
  refine ⟨by simp [hready], ?_⟩
  intro job hjob
  rw [gpu_submit_job_some]
  simp [hready, hjob]

/-- Witness for C18: a Ready device keeps accepting job handle 1 after a `gpu_init` with
a null base. -/
theorem gpu_init_null_base_atomic_witness :
    gpu_init (fun _ => 0) (some ⟨GPU_BASE_ADDR, 97, true, 5⟩) 0 (-1) ⟨0, []⟩ =
        (-1, some ⟨GPU_BASE_ADDR, 97, true, 5⟩, ⟨0, []⟩) ∧
      (gpu_submit_job (gpu_init (fun _ => 0) (some ⟨GPU_BASE_ADDR, 97, true, 5⟩) 0 (-1) ⟨0, []⟩).2.1
        1 (gpu_init (fun _ => 0) (some ⟨GPU_BASE_ADDR, 97, true, 5⟩) 0 (-1) ⟨0, []⟩).2.2).1 = 0 :=
  ⟨(gpu_init_null_base_atomic (fun _ => 0) ⟨GPU_BASE_ADDR, 97, true, 5⟩ (-1) ⟨0, []⟩).1,
    ((gpu_init_null_base_atomic (fun _ => 0) ⟨GPU_BASE_ADDR, 97, true, 5⟩ (-1) ⟨0, []⟩).2.2.2
      rfl).2 1 (by decide)⟩

/-- C19: when `gpu_init` with a non-null base fails, the reset poll has timed out (all
1000 status reads had bit 0 set) and the device holds the new base in `regs` and the new
irq in `irq`, whatever it held before; `features` is as before and `initialized` is
false. -/
theorem gpu_init_failure_keeps_new_handles (hw : Nat → Nat) (d : gpu_device) (base : Nat)
    (irq : Int) (b : Bus) (hbase : base ≠ 0)
    (hfail : (gpu_init hw (some d) base irq b).1 ≠ 0) :
    (∀ k, k < 1000 → hw (b.reads + k) % 2 = 1) ∧
      (gpu_init hw (some d) base irq b).2.1 =
        some { regs := base, irq := irq, initialized := false, features := d.features } := by
  rcases gpu_init_cases hw d base irq b hbase with ⟨k, _, _, _, hres⟩ | ⟨hbusy, hres⟩
  · rw [hres] at hfail
    exact absurd rfl hfail
  · rw [hres]
    exact ⟨hbusy, rfl⟩

/-- Witness for C19: a Ready device on window 0x1000 with irq 5 is re-initialized on the
header's base with irq -3 over hardware that stays busy; it ends with the new base and
irq, not Ready. -/
theorem gpu_init_failure_keeps_new_handles_witness :
    GPU_BASE_ADDR ≠ 0 ∧
      (gpu_init (fun _ => 1) (some ⟨0x1000, 5, true, 7⟩) GPU_BASE_ADDR (-3) ⟨0, []⟩).1 ≠ 0 ∧
      (gpu_init (fun _ => 1) (some ⟨0x1000, 5, true, 7⟩) GPU_BASE_ADDR (-3) ⟨0, []⟩).2.1 =
        some ⟨GPU_BASE_ADDR, -3, false, 7⟩ :=
  have hfail :
      (gpu_init (fun _ => 1) (some ⟨0x1000, 5, true, 7⟩) GPU_BASE_ADDR (-3) ⟨0, []⟩).1 ≠ 0 := by
    rw [gpu_init_all_busy (fun _ => 1) ⟨0x1000, 5, true, 7⟩ GPU_BASE_ADDR (-3) ⟨0, []⟩
      (by decide) (fun _ _ => rfl)]
    decide
  ⟨by decide, hfail,
    (gpu_init_failure_keeps_new_handles (fun _ => 1) ⟨0x1000, 5, true, 7⟩ GPU_BASE_ADDR (-3)
      ⟨0, []⟩ (by decide) hfail).2⟩

theorem statusReads_congr (hw hw2 : Nat → Nat) (base s n : Nat)
    (h : ∀ k, k < n → hw2 (s + k) = hw (s + k)) :
    statusReads hw2 base s n = statusReads hw base s n := by
  unfold statusReads
  apply List.map_congr_left
  intro i hi
  rw [h i (List.mem_range.mp hi)]

/-- The outcome of `gpu_init` is fixed by the first 1000 status values of the call. -/
theorem gpu_init_congr (hw hw2 : Nat → Nat) (d : gpu_device) (base : Nat) (irq : Int) (b : Bus)
    (h : ∀ k, k < 1000 → hw2 (b.reads + k) = hw (b.reads + k)) :
    gpu_init hw2 (some d) base irq b = gpu_init hw (some d) base irq b := by
  by_cases hbase : base = 0
  · rw [hbase, gpu_init_null, gpu_init_null]
  · rcases gpu_init_cases hw d base irq b hbase with ⟨k, hk, hbusy, hclear, hres⟩ | ⟨hbusy, hres⟩
    · rw [hres, gpu_init_first_clear hw2 d base irq b k hbase hk
        (fun j hj => by rw [h j (Nat.lt_trans hj hk)]; exact hbusy j hj)
        (by rw [h k hk]; exact hclear),
        statusReads_congr hw hw2 base b.reads (k + 1)
          (fun j hj => h j (Nat.lt_of_lt_of_le hj hk))]
    · rw [hres, gpu_init_all_busy hw2 d base irq b hbase
        (fun j hj => by rw [h j hj]; exact hbusy j hj),
        statusReads_congr hw hw2 base b.reads 1000 h]

theorem gpu_reset_withFeatures (hw : Nat → Nat) (d : gpu_device) (f : Nat) (b : Bus) :
    gpu_reset hw (some (withFeatures f d)) b =
      ((gpu_reset hw (some d) b).1, Option.map (withFeatures f) (gpu_reset hw (some d) b).2.1,
        (gpu_reset hw (some d) b).2.2) := by
  rcases gpu_reset_cases hw d b with ⟨k, hk, hbusy, hclear, hres⟩ | ⟨hbusy, hres⟩
  · rw [hres, gpu_reset_first_clear hw (withFeatures f d) b k hk hbusy hclear]
    rfl
  · rw [hres, gpu_reset_all_busy hw (withFeatures f d) b hbusy]
    rfl

theorem gpu_init_withFeatures (hw : Nat → Nat) (d : gpu_device) (f base : Nat) (irq : Int)
    (b : Bus) :
    gpu_init hw (some (withFeatures f d)) base irq b =
      ((gpu_init hw (some d) base irq b).1,
        Option.map (withFeatures f) (gpu_init hw (some d) base irq b).2.1,
        (gpu_init hw (some d) base irq b).2.2) := by
  by_cases hbase : base = 0
  · rw [hbase, gpu_init_null, gpu_init_null]
    rfl
  · rcases gpu_init_cases hw d base irq b hbase with ⟨k, hk, hbusy, hclear, hres⟩ | ⟨hbusy, hres⟩
    · rw [hres, gpu_init_first_clear hw (withFeatures f d) base irq b k hbase hk hbusy hclear]
      rfl
    · rw [hres, gpu_init_all_busy hw (withFeatures f d) base irq b hbase hbusy]
      rfl

theorem gpu_cleanup_withFeatures (d : gpu_device) (f : Nat) (b : Bus) :
    gpu_cleanup (some (withFeatures f d)) b =
      (Option.map (withFeatures f) (gpu_cleanup (some d) b).1, (gpu_cleanup (some d) b).2) := by
  cases hi : d.initialized with
  | false =>
    rw [gpu_cleanup_not_initialized d b hi, gpu_cleanup_not_initialized (withFeatures f d) b hi]
    rfl
  | true =>
    rw [gpu_cleanup_initialized d b hi, gpu_cleanup_initialized (withFeatures f d) b hi]
    rfl

theorem gpu_submit_job_withFeatures (d : gpu_device) (f job : Nat) (b : Bus) :
    gpu_submit_job (some (withFeatures f d)) job b =
      ((gpu_submit_job (some d) job b).1,
        Option.map (withFeatures f) (gpu_submit_job (some d) job b).2.1,
        (gpu_submit_job (some d) job b).2.2) := by
  rw [gpu_submit_job_some, gpu_submit_job_some]
  rfl

/-- C20: for a non-null base the value `gpu_init` returns, the state flag it leaves and
the bus it leaves (read count and the whole access log) are the same for any two prior
devices and any two irq values, and are fixed by the first 1000 status values of the
call; the irq is stored as given, whatever integer it is, and `features` is left as it
was. No operation reads or writes `features`: run on a device that differs only in
`features`, each of the four operations returns the same value and bus, and the same
device but for that field. -/
theorem gpu_init_independent (hw : Nat → Nat) (d1 d2 : gpu_device) (base : Nat)
    (irq1 irq2 : Int) (b : Bus) (hbase : base ≠ 0) :
    (gpu_init hw (some d1) base irq1 b).1 = (gpu_init hw (some d2) base irq2 b).1 ∧
      Option.map gpu_device.initialized (gpu_init hw (some d1) base irq1 b).2.1 =
        Option.map gpu_device.initialized (gpu_init hw (some d2) base irq2 b).2.1 ∧
      (gpu_init hw (some d1) base irq1 b).2.2 = (gpu_init hw (some d2) base irq2 b).2.2 ∧
      (∀ hw2 : Nat → Nat, (∀ k, k < 1000 → hw2 (b.reads + k) = hw (b.reads + k)) →
        gpu_init hw2 (some d1) base irq1 b = gpu_init hw (some d1) base irq1 b) ∧
      Option.map gpu_device.irq (gpu_init hw (some d1) base irq1 b).2.1 = some irq1 ∧
      Option.map gpu_device.regs (gpu_init hw (some d1) base irq1 b).2.1 = some base ∧
      Option.map gpu_device.features (gpu_init hw (some d1) base irq1 b).2.1 =
        some d1.features ∧
      ∀ (f job : Nat),
        gpu_init hw (some (withFeatures f d1)) base irq1 b =
            ((gpu_init hw (some d1) base irq1 b).1,
              Option.map (withFeatures f) (gpu_init hw (some d1) base irq1 b).2.1,
              (gpu_init hw (some d1) base irq1 b).2.2) ∧
          gpu_reset hw (some (withFeatures f d1)) b =
            ((gpu_reset hw (some d1) b).1,
              Option.map (withFeatures f) (gpu_reset hw (some d1) b).2.1,
              (gpu_reset hw (some d1) b).2.2) ∧
          gpu_submit_job (some (withFeatures f d1)) job b =
            ((gpu_submit_job (some d1) job b).1,
              Option.map (withFeatures f) (gpu_submit_job (some d1) job b).2.1,
              (gpu_submit_job (some d1) job b).2.2) ∧
          gpu_cleanup (some (withFeatures f d1)) b =
            (Option.map (withFeatures f) (gpu_cleanup (some d1) b).1,
              (gpu_cleanup (some d1) b).2) := by
  have hfeat : ∀ (f job : Nat),
      gpu_init hw (some (withFeatures f d1)) base irq1 b =
          ((gpu_init hw (some d1) base irq1 b).1,
            Option.map (withFeatures f) (gpu_init hw (some d1) base irq1 b).2.1,
            (gpu_init hw (some d1) base irq1 b).2.2) ∧
        gpu_reset hw (some (withFeatures f d1)) b =
          ((gpu_reset hw (some d1) b).1,
            Option.map (withFeatures f) (gpu_reset hw (some d1) b).2.1,
            (gpu_reset hw (some d1) b).2.2) ∧
        gpu_submit_job (some (withFeatures f d1)) job b =
          ((gpu_submit_job (some d1) job b).1,
            Option.map (withFeatures f) (gpu_submit_job (some d1) job b).2.1,
            (gpu_submit_job (some d1) job b).2.2) ∧
        gpu_cleanup (some (withFeatures f d1)) b =
          (Option.map (withFeatures f) (gpu_cleanup (some d1) b).1,
            (gpu_cleanup (some d1) b).2) :=
    fun f job => ⟨gpu_init_withFeatures hw d1 f base irq1 b, gpu_reset_withFeatures hw d1 f b,
      gpu_submit_job_withFeatures d1 f job b, gpu_cleanup_withFeatures d1 f b⟩
  have hstream := gpu_init_congr hw
  rcases gpu_init_cases hw d1 base irq1 b hbase with ⟨k, hk, hbusy, hclear, hres⟩ | ⟨hbusy, hres⟩
  · rw [gpu_init_first_clear hw d2 base irq2 b k hbase hk hbusy hclear]
    refine ⟨by rw [hres], by rw [hres]; rfl, by rw [hres], ?_, by rw [hres]; rfl,
      by rw [hres]; rfl, by rw [hres]; rfl, hfeat⟩
    intro hw2 h
    exact hstream hw2 d1 base irq1 b h
  · rw [gpu_init_all_busy hw d2 base irq2 b hbase hbusy]
    refine ⟨by rw [hres], by rw [hres]; rfl, by rw [hres], ?_, by rw [hres]; rfl,
      by rw [hres]; rfl, by rw [hres]; rfl, hfeat⟩
    intro hw2 h
    exact hstream hw2 d1 base irq1 b h

/-- Witness for C20: a fresh device with irq 97 and a Ready device on another window with
irq -1, both initialized on the header's base over hardware that is idle at once, leave
the same bus. -/
theorem gpu_init_independent_witness :
    GPU_BASE_ADDR ≠ 0 ∧
      (gpu_init (fun _ => 0) (some ⟨0, 0, false, 0⟩) GPU_BASE_ADDR 97 ⟨0, []⟩).2.2 =
        (gpu_init (fun _ => 0) (some ⟨0x1000, 5, true, 7⟩) GPU_BASE_ADDR (-1) ⟨0, []⟩).2.2 ∧
      Option.map gpu_device.irq
          (gpu_init (fun _ => 0) (some ⟨0x1000, 5, true, 7⟩) GPU_BASE_ADDR (-1) ⟨0, []⟩).2.1 =
        some (-1) :=
  ⟨by decide,
    (gpu_init_independent (fun _ => 0) ⟨0, 0, false, 0⟩ ⟨0x1000, 5, true, 7⟩ GPU_BASE_ADDR 97
      (-1) ⟨0, []⟩ (by decide)).2.2.1,
    (gpu_init_independent (fun _ => 0) ⟨0x1000, 5, true, 7⟩ ⟨0, 0, false, 0⟩ GPU_BASE_ADDR (-1)
      97 ⟨0, []⟩ (by decide)).2.2.2.2.1⟩

/-! ## Register footprint and the poll budget -/

theorem all_inFootprint_statusReads (hw : Nat → Nat) (base s n : Nat) :
    (statusReads hw base s n).all inFootprint = true := by
  induction n generalizing s with
  | zero => rfl
  | succ n ih =>
    rw [statusReads_succ, List.all_cons, ih]
    simp [inFootprint]

theorem commandWrites_statusReads (hw : Nat → Nat) (base s n : Nat) :
    commandWrites (statusReads hw base s n) = [] := by
  induction n generalizing s with
  | zero => rfl
  | succ n ih => rw [statusReads_succ, commandWrites, ih]

theorem commandWrites_append (xs ys : List Access) :
    commandWrites (xs ++ ys) = commandWrites xs ++ commandWrites ys := by
  induction xs with
  | nil => rfl
  | cons a xs ih =>
    cases a with
    | read w o v => simp [commandWrites, ih]
    | write w o v =>
      by_cases h : o = GPU_CMD_REG <;> simp [commandWrites, h, ih]

theorem gpu_reset_poll_reads_le (hw : Nat → Nat) (d : gpu_device) (n : Nat) (b : Bus) :
    (gpu_reset_poll hw d n b).2.reads ≤ b.reads + n := by
  rcases poll_spec hw d n b with ⟨k, hk, _, _, hres⟩ | ⟨_, hres⟩
  · rw [hres]
    exact Nat.add_le_add_left hk b.reads
  · rw [hres]
    exact Nat.le_refl _

/-- C16: every access performed by a call of `gpu_init`, `gpu_reset`, `gpu_submit_job` or
`gpu_cleanup` lies in the footprint: a read is of the status register, a write is 0x01 to
the command register or goes to the interrupt-clear, interrupt-mask or power-override
register; so no access is at offset 0x000 (Control) or 0x02C (IRQ Status), and a write
to the command register carries 0x01. -/
theorem register_footprint (hw : Nat → Nat) (d : gpu_device) (base : Nat) (irq : Int)
    (job : Nat) (b : Bus) :
    (performed b (gpu_init hw (some d) base irq b).2.2).all inFootprint = true ∧
      (performed b (gpu_reset hw (some d) b).2.2).all inFootprint = true ∧
      (performed b (gpu_submit_job (some d) job b).2.2).all inFootprint = true ∧
      (performed b (gpu_cleanup (some d) b).2).all inFootprint = true ∧
      ∀ a, inFootprint a = true →
        a.offset ≠ 0x000 ∧ a.offset ≠ 0x02C ∧
          (∀ w o v, a = Access.read w o v → o = GPU_STATUS_REG) ∧
          (∀ w o v, a = Access.write w o v →
            (o = GPU_CMD_REG ∧ v = 0x01) ∨ o = GPU_IRQ_CLEAR ∨ o = GPU_IRQ_MASK ∨
              o = GPU_PWR_OVERRIDE) ∧
          ∀ w v, a = Access.write w GPU_CMD_REG v → v = 0x01 := by
  refine ⟨?_, ?_, ?_, ?_, ?_⟩
  · by_cases hbase : base = 0
    · rw [hbase, gpu_init_null, performed_self]
      rfl
    · rcases gpu_init_cases hw d base irq b hbase with ⟨k, _, _, _, hres⟩ | ⟨_, hres⟩
      · rw [hres, performed_append, List.all_append, List.all_cons,
          all_inFootprint_statusReads]
        simp [inFootprint]
      · rw [hres, performed_append, List.all_cons, all_inFootprint_statusReads]
        simp [inFootprint]
  · rcases gpu_reset_cases hw d b with ⟨k, _, _, _, hres⟩ | ⟨_, hres⟩
    · rw [hres, performed_append, List.all_cons, all_inFootprint_statusReads]
      simp [inFootprint]
    · rw [hres, performed_append, List.all_cons, all_inFootprint_statusReads]
      simp [inFootprint]
  · rw [gpu_submit_job_some, performed_self]
    rfl
  · cases hi : d.initialized with
    | false =>
      rw [gpu_cleanup_not_initialized d b hi, performed_self]
      rfl
    | true =>
      rw [gpu_cleanup_initialized d b hi, performed_append]
      simp [inFootprint]
  · intro a ha
    cases a with
    | read w o v =>
      have ho : o = GPU_STATUS_REG := by simpa [inFootprint] using ha
      subst ho
      refine ⟨?_, ?_, ?_, ?_, ?_⟩
      · show GPU_STATUS_REG ≠ 0x000
        decide
      · show GPU_STATUS_REG ≠ 0x02C
        decide
      · intro w2 o2 v2 h
        cases h
        rfl
      · intro w2 o2 v2 h
        cases h
      · intro w2 v2 h
        cases h
    | write w o v =>
      have ho : (o = GPU_CMD_REG ∧ v = 0x01) ∨ o = GPU_IRQ_CLEAR ∨ o = GPU_IRQ_MASK ∨
          o = GPU_PWR_OVERRIDE := by
        simpa [inFootprint, or_assoc] using ha
      refine ⟨?_, ?_, ?_, ?_, ?_⟩
      · show o ≠ 0x000
        rcases ho with ⟨h, _⟩ | h | h | h <;> rw [h] <;> decide
      · show o ≠ 0x02C
        rcases ho with ⟨h, _⟩ | h | h | h <;> rw [h] <;> decide
      · intro w2 o2 v2 h
        cases h
      · intro w2 o2 v2 h
        cases h
        exact ho
      · intro w2 v2 h
        cases h
        rcases ho with ⟨_, h⟩ | h | h | h
        · exact h
        · exact absurd h (by decide)
        · exact absurd h (by decide)
        · exact absurd h (by decide)

/-- C17, counterexample: `gpu_init` with a null base terminates without any write to the
command register (and without any read), so it does not perform exactly one such
write. -/
theorem gpu_init_null_base_no_command_write :
    commandWrites
        (performed ⟨0, []⟩
          (gpu_init (fun _ => 0) (some ⟨0, 0, false, 0⟩) 0 97 ⟨0, []⟩).2.2) = [] ∧
      (commandWrites
        (performed ⟨0, []⟩
          (gpu_init (fun _ => 0) (some ⟨0, 0, false, 0⟩) 0 97 ⟨0, []⟩).2.2)).length ≠ 1 := by
  decide

/-- C17, amended: for every device and every stream of status values, `gpu_reset`, and
`gpu_init` called with a non-null base, return after at most 1000 status reads and
exactly one write to the command register; the poll loop is a total function on its
retry budget and, entered with budget `n`, makes at most `n` reads. -/
theorem reset_handshake_bounded (hw : Nat → Nat) (d : gpu_device) (base : Nat) (irq : Int)
    (b : Bus) (hbase : base ≠ 0) :
    (∀ (n : Nat) (b1 : Bus), (gpu_reset_poll hw d n b1).2.reads ≤ b1.reads + n) ∧
      (readsOf (performed b (gpu_reset hw (some d) b).2.2)).length ≤ 1000 ∧
      (gpu_reset hw (some d) b).2.2.reads ≤ b.reads + 1000 ∧
      commandWrites (performed b (gpu_reset hw (some d) b).2.2) =
        [Access.write d.regs GPU_CMD_REG 0x01] ∧
      (readsOf (performed b (gpu_init hw (some d) base irq b).2.2)).length ≤ 1000 ∧
      (gpu_init hw (some d) base irq b).2.2.reads ≤ b.reads + 1000 ∧
      commandWrites (performed b (gpu_init hw (some d) base irq b).2.2) =
        [Access.write base GPU_CMD_REG 0x01] := by
  have hcfg : commandWrites
      [Access.write base GPU_IRQ_CLEAR 0xFFFFFFFF, Access.write base GPU_IRQ_MASK 0x01,
        Access.write base GPU_PWR_OVERRIDE 0xFFFFFFFF] = [] := by
    simp [commandWrites, GPU_IRQ_CLEAR, GPU_IRQ_MASK, GPU_PWR_OVERRIDE, GPU_CMD_REG]
  have hrcfg : readsOf
      [Access.write base GPU_IRQ_CLEAR 0xFFFFFFFF, Access.write base GPU_IRQ_MASK 0x01,
        Access.write base GPU_PWR_OVERRIDE 0xFFFFFFFF] = [] := rfl
  refine ⟨gpu_reset_poll_reads_le hw d, ?_, ?_, ?_, ?_, ?_, ?_⟩
  · rcases gpu_reset_cases hw d b with ⟨k, hk, _, _, hres⟩ | ⟨_, hres⟩
    · rw [hres, performed_append, readsOf, readsOf_statusReads, statusReads_length]
      exact hk
    · rw [hres, performed_append, readsOf, readsOf_statusReads, statusReads_length]
  · rcases gpu_reset_cases hw d b with ⟨k, hk, _, _, hres⟩ | ⟨_, hres⟩
    · rw [hres]
      exact Nat.add_le_add_left hk b.reads
    · rw [hres]
  · rcases gpu_reset_cases hw d b with ⟨k, _, _, _, hres⟩ | ⟨_, hres⟩
    · rw [hres, performed_append, commandWrites, if_pos rfl, commandWrites_statusReads]
    · rw [hres, performed_append, commandWrites, if_pos rfl, commandWrites_statusReads]
  · rcases gpu_init_cases hw d base irq b hbase with ⟨k, hk, _, _, hres⟩ | ⟨_, hres⟩
    · rw [hres, performed_append, readsOf_append, readsOf, readsOf_statusReads, hrcfg,
        List.append_nil, statusReads_length]
      exact hk
    · rw [hres, performed_append, readsOf, readsOf_statusReads, statusReads_length]
  · rcases gpu_init_cases hw d base irq b hbase with ⟨k, hk, _, _, hres⟩ | ⟨_, hres⟩
    · rw [hres]
      exact Nat.add_le_add_left hk b.reads
    · rw [hres]
  · rcases gpu_init_cases hw d base irq b hbase with ⟨k, _, _, _, hres⟩ | ⟨_, hres⟩
    · rw [hres, performed_append, commandWrites_append, commandWrites, if_pos rfl,
        commandWrites_statusReads, hcfg]
      rfl
    · rw [hres, performed_append, commandWrites, if_pos rfl, commandWrites_statusReads]

/-- Witness for C17 (amended): hardware that never leaves the busy state; both calls stop
at 1000 reads. -/
theorem reset_handshake_bounded_witness :
    GPU_BASE_ADDR ≠ 0 ∧
      (gpu_reset (fun _ => 1) (some ⟨GPU_BASE_ADDR, 97, false, 0⟩) ⟨0, []⟩).2.2.reads ≤
        0 + 1000 ∧
      commandWrites
          (performed ⟨0, []⟩
            (gpu_init (fun _ => 1) (some ⟨GPU_BASE_ADDR, 97, false, 0⟩) GPU_BASE_ADDR 97
              ⟨0, []⟩).2.2) =
        [Access.write GPU_BASE_ADDR GPU_CMD_REG 0x01] :=
  ⟨by decide,
    (reset_handshake_bounded (fun _ => 1) ⟨GPU_BASE_ADDR, 97, false, 0⟩ GPU_BASE_ADDR 97 ⟨0, []⟩
      (by decide)).2.2.1,
    (reset_handshake_bounded (fun _ => 1) ⟨GPU_BASE_ADDR, 97, false, 0⟩ GPU_BASE_ADDR 97 ⟨0, []⟩
      (by decide)).2.2.2.2.2.2⟩

/-! ## Runs of calls: the Ready invariant -/

theorem statusReads_succ_last (hw : Nat → Nat) (base s n : Nat) :
    statusReads hw base s (n + 1) =
      statusReads hw base s n ++ [Access.read base GPU_STATUS_REG (hw (s + n) % 2 ^ 32)] := by
  unfold statusReads
  rw [List.range_succ, List.map_append]
  rfl

theorem resetTraffic_statusReads (hw : Nat → Nat) (base s n : Nat) (a : Access)
    (h : a ∈ statusReads hw base s n) : isResetTraffic base a = true := by
  rcases mem_statusReads hw base s n a h with ⟨v, hv⟩
  rw [hv]
  simp [isResetTraffic]

theorem resetTraffic_reset (hw : Nat → Nat) (base s n : Nat) (a : Access)
    (h : a ∈ Access.write base GPU_CMD_REG 0x01 :: statusReads hw base s n) :
    isResetTraffic base a = true := by
  rcases List.mem_cons.mp h with h1 | h1
  · rw [h1]
    simp [isResetTraffic]
  · exact resetTraffic_statusReads hw base s n a h1

theorem busy_statusReads (hw : Nat → Nat) (base s n : Nat)
    (hbusy : ∀ j, j < n → hw (s + j) % 2 = 1) (a : Access) (h : a ∈ statusReads hw base s n) :
    ∃ u, a = Access.read base GPU_STATUS_REG u ∧ u % 2 = 1 := by
  unfold statusReads at h
  rcases List.mem_map.mp h with ⟨i, hi, ha⟩
  refine ⟨hw (s + i) % 2 ^ 32, ha.symm, ?_⟩
  rw [Nat.mod_mod_of_dvd _ (by norm_num)]
  exact hbusy i (List.mem_range.mp hi)

theorem Configured_append (base : Nat) (log xs : List Access) (h : Configured base log)
    (hxs : ∀ a, a ∈ xs → isResetTraffic base a = true) : Configured base (log ++ xs) := by
  rcases h with ⟨pre, polls, v, post, hlog, hv, hpolls, hpost⟩
  refine ⟨pre, polls, v, post ++ xs, ?_, hv, hpolls, ?_⟩
  · rw [hlog, List.append_assoc]
  · intro a ha
    rcases List.mem_append.mp ha with h1 | h1
    · exact hpost a h1
    · exact hxs a h1

/-- A successful `gpu_init` leaves a log that shows a completed initialization. -/
theorem Configured_init (hw : Nat → Nat) (base s k : Nat) (log : List Access)
    (hbusy : ∀ j, j < k → hw (s + j) % 2 = 1) (hclear : hw (s + k) % 2 = 0) :
    Configured base
      (log ++
        (Access.write base GPU_CMD_REG 0x01 :: statusReads hw base s (k + 1) ++
          [Access.write base GPU_IRQ_CLEAR 0xFFFFFFFF, Access.write base GPU_IRQ_MASK 0x01,
            Access.write base GPU_PWR_OVERRIDE 0xFFFFFFFF])) := by
  refine ⟨log, statusReads hw base s k, hw (s + k) % 2 ^ 32, [], ?_, ?_,
    busy_statusReads hw base s k hbusy, ?_⟩
  · rw [statusReads_succ_last]
    simp only [List.append_assoc, List.cons_append, List.nil_append, List.append_nil,
      List.singleton_append]
  · rw [Nat.mod_mod_of_dvd _ (by norm_num)]
    exact hclear
  · intro a ha
    cases ha

theorem step_ReadyInv (hw : Nat → Nat) (c : Call) (s : Option gpu_device × Bus)
    (h : ReadyInv s) : ReadyInv (step hw c s) := by
  rcases s with ⟨dev, b⟩
  rcases h with ⟨d, hd, hinv⟩
  have hdev : dev = some d := hd
  subst hdev
  cases c with
  | init base irq =>
    show ReadyInv (gpu_init hw (some d) base irq b).2
    by_cases hbase : base = 0
    · rw [hbase, gpu_init_null]
      exact ⟨d, rfl, hinv⟩
    · rcases gpu_init_cases hw d base irq b hbase with ⟨k, _, hbusy, hclear, hres⟩ | ⟨_, hres⟩
      · rw [hres]
        exact ⟨_, rfl, fun _ => ⟨hbase, Configured_init hw base b.reads k b.log hbusy hclear⟩⟩
      · rw [hres]
        exact ⟨_, rfl, fun hready => absurd hready (by simp)⟩
  | reset =>
    show ReadyInv (gpu_reset hw (some d) b).2
    rcases gpu_reset_cases hw d b with ⟨k, _, _, _, hres⟩ | ⟨_, hres⟩
    · rw [hres]
      exact ⟨d, rfl, fun hready => ⟨(hinv hready).1,
        Configured_append d.regs b.log _ (hinv hready).2
          (resetTraffic_reset hw d.regs b.reads (k + 1))⟩⟩
    · rw [hres]
      exact ⟨d, rfl, fun hready => ⟨(hinv hready).1,
        Configured_append d.regs b.log _ (hinv hready).2
          (resetTraffic_reset hw d.regs b.reads 1000)⟩⟩
  | submit job =>
    show ReadyInv (gpu_submit_job (some d) job b).2
    rw [gpu_submit_job_some]
    exact ⟨d, rfl, hinv⟩
  | cleanup =>
    show ReadyInv (gpu_cleanup (some d) b)
    cases hi : d.initialized with
    | false =>
      rw [gpu_cleanup_not_initialized d b hi]
      exact ⟨d, rfl, hinv⟩
    | true =>
      rw [gpu_cleanup_initialized d b hi]
      exact ⟨_, rfl, fun hready => absurd hready (by simp)⟩

theorem run_ReadyInv (hw : Nat → Nat) (calls : List Call) (s : Option gpu_device × Bus)
    (h : ReadyInv s) : ReadyInv (run hw calls s) := by
  induction calls generalizing s with
  | nil => exact h
  | cons c cs ih => exact ih (step hw c s) (step_ReadyInv hw c s h)

theorem lastWritten_append_some (base offset v : Nat) (xs ys : List Access)
    (h : lastWritten base offset ys = some v) : lastWritten base offset (xs ++ ys) = some v := by
  induction xs with
  | nil => exact h
  | cons a xs ih =>
    cases a with
    | read w o u => simpa [lastWritten] using ih
    | write w o u => simp [lastWritten, ih]

theorem lastWritten_append_none (base offset : Nat) (xs ys : List Access)
    (h : lastWritten base offset ys = none) :
    lastWritten base offset (xs ++ ys) = lastWritten base offset xs := by
  induction xs with
  | nil => exact h
  | cons a xs ih =>
    cases a with
    | read w o u => simpa [lastWritten] using ih
    | write w o u => simp [lastWritten, ih]

theorem lastWritten_resetTraffic (base offset : Nat) (post : List Access)
    (hoff : offset ≠ GPU_CMD_REG) (h : ∀ a, a ∈ post → isResetTraffic base a = true) :
    lastWritten base offset post = none := by
  induction post with
  | nil => rfl
  | cons a post ih =>
    have hrest := ih (fun x hx => h x (List.mem_cons_of_mem _ hx))
    have ha := h a (List.mem_cons_self _ _)
    cases a with
    | read w o u => simpa [lastWritten] using hrest
    | write w o u =>
      have ho : o = GPU_CMD_REG := by
        simp only [isResetTraffic, Bool.and_eq_true, decide_eq_true_eq] at ha
        exact ha.1.2
      have hne : ¬ (w = base ∧ o = offset) := by
        rintro ⟨_, h2⟩
        exact hoff (h2.symm.trans ho)
      simp [lastWritten, hrest, hne]

/-- What the registers of a configured window were last set to. -/
theorem lastWritten_of_Configured (base : Nat) (log : List Access) (h : Configured base log) :
    lastWritten base GPU_IRQ_MASK log = some 0x01 ∧
      lastWritten base GPU_IRQ_CLEAR log = some 0xFFFFFFFF ∧
      lastWritten base GPU_PWR_OVERRIDE log = some 0xFFFFFFFF := by
  rcases h with ⟨pre, polls, v, post, hlog, _, _, hpost⟩
  rw [hlog]
  refine ⟨?_, ?_, ?_⟩
  · rw [lastWritten_append_none _ _ _ _
      (lastWritten_resetTraffic base GPU_IRQ_MASK post (by decide) hpost), ← List.append_assoc]
    apply lastWritten_append_some
    simp [lastWritten, GPU_IRQ_MASK, GPU_IRQ_CLEAR, GPU_PWR_OVERRIDE]
  · rw [lastWritten_append_none _ _ _ _
      (lastWritten_resetTraffic base GPU_IRQ_CLEAR post (by decide) hpost), ← List.append_assoc]
    apply lastWritten_append_some
    simp [lastWritten, GPU_IRQ_MASK, GPU_IRQ_CLEAR, GPU_PWR_OVERRIDE]
  · rw [lastWritten_append_none _ _ _ _
      (lastWritten_resetTraffic base GPU_PWR_OVERRIDE post (by decide) hpost),
      ← List.append_assoc]
    apply lastWritten_append_some
    simp [lastWritten, GPU_IRQ_MASK, GPU_IRQ_CLEAR, GPU_PWR_OVERRIDE]

/-- C14: from an Uninitialized device and an empty access log, after any list of
`gpu_init`, `gpu_reset`, `gpu_submit_job` and `gpu_cleanup` calls with any arguments over
any status stream, a device that is Ready has a non-null `regs`; its log shows, for that
window, a reset request, busy status reads, a status read with bit 0 clear and the three
configuration writes of `gpu_init`, followed by nothing but reset requests and status
reads; and the last values written to the interrupt-mask, interrupt-clear and
power-override registers of that window are 0x01, 0xFFFFFFFF and 0xFFFFFFFF. -/
theorem ready_invariant (hw : Nat → Nat) (d0 : gpu_device) (r : Nat) (calls : List Call)
    (hun : d0.initialized = false) :
    ∃ d, (run hw calls (some d0, ⟨r, []⟩)).1 = some d ∧
      (d.initialized = true →
        d.regs ≠ 0 ∧ Configured d.regs (run hw calls (some d0, ⟨r, []⟩)).2.log ∧
          lastWritten d.regs GPU_IRQ_MASK (run hw calls (some d0, ⟨r, []⟩)).2.log = some 0x01 ∧
          lastWritten d.regs GPU_IRQ_CLEAR (run hw calls (some d0, ⟨r, []⟩)).2.log =
            some 0xFFFFFFFF ∧
          lastWritten d.regs GPU_PWR_OVERRIDE (run hw calls (some d0, ⟨r, []⟩)).2.log =
            some 0xFFFFFFFF) := by
  have h0 : ReadyInv (some d0, ⟨r, []⟩) :=
    ⟨d0, rfl, fun hready => absurd (hun.symm.trans hready) (by decide)⟩
  rcases run_ReadyInv hw calls _ h0 with ⟨d, hd, hinv⟩
  refine ⟨d, hd, fun hready => ?_⟩
  have hc := (hinv hready).2
  have hl := lastWritten_of_Configured d.regs _ hc
  exact ⟨(hinv hready).1, hc, hl.1, hl.2.1, hl.2.2⟩

/-- Witness for C14: a fresh device is initialized on the header's base over idle
hardware, given a job, reset, and is Ready at the end. -/
theorem ready_invariant_witness :
    (gpu_device.mk 0 0 false 0).initialized = false ∧
      (run (fun _ => 0) [Call.init GPU_BASE_ADDR 97, Call.submit 1, Call.reset]
        (some ⟨0, 0, false, 0⟩, ⟨0, []⟩)).1 = some ⟨GPU_BASE_ADDR, 97, true, 0⟩ ∧
      ∃ d, (run (fun _ => 0) [Call.init GPU_BASE_ADDR 97, Call.submit 1, Call.reset]
          (some ⟨0, 0, false, 0⟩, ⟨0, []⟩)).1 = some d ∧
        (d.initialized = true →
          d.regs ≠ 0 ∧
            Configured d.regs
              (run (fun _ => 0) [Call.init GPU_BASE_ADDR 97, Call.submit 1, Call.reset]
                (some ⟨0, 0, false, 0⟩, ⟨0, []⟩)).2.log ∧
            lastWritten d.regs GPU_IRQ_MASK
                (run (fun _ => 0) [Call.init GPU_BASE_ADDR 97, Call.submit 1, Call.reset]
                  (some ⟨0, 0, false, 0⟩, ⟨0, []⟩)).2.log = some 0x01 ∧
            lastWritten d.regs GPU_IRQ_CLEAR
                (run (fun _ => 0) [Call.init GPU_BASE_ADDR 97, Call.submit 1, Call.reset]
                  (some ⟨0, 0, false, 0⟩, ⟨0, []⟩)).2.log = some 0xFFFFFFFF ∧
            lastWritten d.regs GPU_PWR_OVERRIDE
                (run (fun _ => 0) [Call.init GPU_BASE_ADDR 97, Call.submit 1, Call.reset]
                  (some ⟨0, 0, false, 0⟩, ⟨0, []⟩)).2.log = some 0xFFFFFFFF) :=
  ⟨rfl, by decide,
    ready_invariant (fun _ => 0) ⟨0, 0, false, 0⟩ 0
      [Call.init GPU_BASE_ADDR 97, Call.submit 1, Call.reset] rfl⟩

/-! ## Runs of calls: after `gpu_cleanup` -/

theorem step_not_ready (hw : Nat → Nat) (c : Call) (d : gpu_device) (b : Bus)
    (hnot : d.initialized = false) (hfail : initFails hw c (some d, b) = true) :
    ∃ d2, (step hw c (some d, b)).1 = some d2 ∧ d2.initialized = false := by
  cases c with
  | init base irq =>
    show ∃ d2, (gpu_init hw (some d) base irq b).2.1 = some d2 ∧ d2.initialized = false
    have hret : (gpu_init hw (some d) base irq b).1 ≠ 0 := by
      simpa [initFails] using hfail
    by_cases hbase : base = 0
    · rw [hbase, gpu_init_null]
      exact ⟨d, rfl, hnot⟩
    · rcases gpu_init_cases hw d base irq b hbase with ⟨k, _, _, _, hres⟩ | ⟨_, hres⟩
      · rw [hres] at hret
        exact absurd rfl hret
      · rw [hres]
        exact ⟨_, rfl, rfl⟩
  | reset =>
    show ∃ d2, (gpu_reset hw (some d) b).2.1 = some d2 ∧ d2.initialized = false
    exact ⟨d, rfl, hnot⟩
  | submit job =>
    show ∃ d2, (gpu_submit_job (some d) job b).2.1 = some d2 ∧ d2.initialized = false
    rw [gpu_submit_job_some]
    exact ⟨d, rfl, hnot⟩
  | cleanup =>
    show ∃ d2, (gpu_cleanup (some d) b).1 = some d2 ∧ d2.initialized = false
    rw [gpu_cleanup_not_initialized d b hnot]
    exact ⟨d, rfl, hnot⟩

theorem run_not_ready (hw : Nat → Nat) (calls : List Call) (s : Option gpu_device × Bus)
    (hs : ∃ d, s.1 = some d ∧ d.initialized = false) (hfail : initsFail hw calls s = true) :
    ∃ d2, (run hw calls s).1 = some d2 ∧ d2.initialized = false := by
  induction calls generalizing s with
  | nil => exact hs
  | cons c cs ih =>
    rcases s with ⟨dev, b⟩
    rcases hs with ⟨d, hd, hnot⟩
    have hdev : dev = some d := hd
    subst hdev
    rw [initsFail, Bool.and_eq_true] at hfail
    exact ih (step hw c (some d, b)) (step_not_ready hw c d b hnot hfail.1) hfail.2

theorem initsFail_of_append (hw : Nat → Nat) (pre rest : List Call) (s : Option gpu_device × Bus)
    (h : initsFail hw (pre ++ rest) s = true) : initsFail hw pre s = true := by
  induction pre generalizing s with
  | nil => rfl
  | cons c cs ih =>
    rw [List.cons_append, initsFail, Bool.and_eq_true] at h
    rw [initsFail, Bool.and_eq_true]
    exact ⟨h.1, ih (step hw c s) h.2⟩

theorem gpu_init_idle (hw : Nat → Nat) (d : gpu_device) (base : Nat) (irq : Int) (b : Bus)
    (hbase : base ≠ 0) (hidle : ∃ k, k < 1000 ∧ hw (b.reads + k) % 2 = 0) :
    (gpu_init hw (some d) base irq b).1 = 0 ∧
      (gpu_init hw (some d) base irq b).2.1 =
        some { regs := base, irq := irq, initialized := true, features := d.features } := by
  rcases gpu_init_cases hw d base irq b hbase with ⟨k, _, _, _, hres⟩ | ⟨hbusy, _⟩
  · rw [hres]
    exact ⟨rfl, rfl⟩
  · rcases hidle with ⟨k, hk, hclear⟩
    rw [hbusy k hk] at hclear
    exact absurd hclear (by decide)

/-- C15: after `gpu_cleanup` on a Ready device, along any list of calls whose `gpu_init`
calls all fail, every `gpu_submit_job` call returns `-1` and the device is not Ready at
the end; a `gpu_init` made then with a non-null base over hardware that shows bit 0 clear
within 1000 reads returns `0`, leaves the device Ready, and a `gpu_submit_job` with a
non-null job after it returns `0`. -/
theorem no_submission_after_cleanup (hw : Nat → Nat) (d : gpu_device) (b : Bus)
    (calls : List Call) (hready : d.initialized = true)
    (hfail : initsFail hw calls (gpu_cleanup (some d) b) = true) :
    (∀ pre job rest, calls = pre ++ Call.submit job :: rest →
        (gpu_submit_job (run hw pre (gpu_cleanup (some d) b)).1 job
          (run hw pre (gpu_cleanup (some d) b)).2).1 = -1) ∧
      (∃ d2, (run hw calls (gpu_cleanup (some d) b)).1 = some d2 ∧ d2.initialized = false) ∧
      ∀ (base : Nat) (irq : Int) (job : Nat), base ≠ 0 → job ≠ 0 →
        (∃ k, k < 1000 ∧ hw ((run hw calls (gpu_cleanup (some d) b)).2.reads + k) % 2 = 0) →
        (gpu_init hw (run hw calls (gpu_cleanup (some d) b)).1 base irq
            (run hw calls (gpu_cleanup (some d) b)).2).1 = 0 ∧
          Option.map gpu_device.initialized
              (gpu_init hw (run hw calls (gpu_cleanup (some d) b)).1 base irq
                (run hw calls (gpu_cleanup (some d) b)).2).2.1 = some true ∧
          (gpu_submit_job
              (gpu_init hw (run hw calls (gpu_cleanup (some d) b)).1 base irq
                (run hw calls (gpu_cleanup (some d) b)).2).2.1 job
              (gpu_init hw (run hw calls (gpu_cleanup (some d) b)).1 base irq
                (run hw calls (gpu_cleanup (some d) b)).2).2.2).1 = 0 := by
  have h0 : ∃ d1, (gpu_cleanup (some d) b).1 = some d1 ∧ d1.initialized = false := by
    rw [gpu_cleanup_initialized d b hready]
    exact ⟨_, rfl, rfl⟩
  refine ⟨?_, run_not_ready hw calls _ h0 hfail, ?_⟩
  · intro pre job rest hcalls
    rw [hcalls] at hfail
    rcases run_not_ready hw pre _ h0 (initsFail_of_append hw pre _ _ hfail) with ⟨d2, hd2, hnot⟩
    rw [hd2, gpu_submit_job_some]
    simp [hnot]
  · intro base irq job hbase hjob hidle
    rcases run_not_ready hw calls _ h0 hfail with ⟨d2, hd2, _⟩
    rw [hd2]
    have hinit := gpu_init_idle hw d2 base irq _ hbase hidle
    rw [hinit.2, gpu_submit_job_some]
    exact ⟨hinit.1, rfl, by simp [hjob]⟩

/-- Witness for C15: after the cleanup come a submission, a reset, a `gpu_init` with a
null base, a second cleanup and another submission; the last submission is refused. -/
theorem no_submission_after_cleanup_witness :
    (gpu_device.mk GPU_BASE_ADDR 97 true 0).initialized = true ∧
      initsFail (fun _ => 0)
          [Call.submit 1, Call.reset, Call.init 0 97, Call.cleanup, Call.submit 2]
          (gpu_cleanup (some ⟨GPU_BASE_ADDR, 97, true, 0⟩) ⟨0, []⟩) = true ∧
      (gpu_submit_job
        (run (fun _ => 0) [Call.submit 1, Call.reset, Call.init 0 97, Call.cleanup]
          (gpu_cleanup (some ⟨GPU_BASE_ADDR, 97, true, 0⟩) ⟨0, []⟩)).1 2
        (run (fun _ => 0) [Call.submit 1, Call.reset, Call.init 0 97, Call.cleanup]
          (gpu_cleanup (some ⟨GPU_BASE_ADDR, 97, true, 0⟩) ⟨0, []⟩)).2).1 = -1 :=
  ⟨rfl, by decide,
    (no_submission_after_cleanup (fun _ => 0) ⟨GPU_BASE_ADDR, 97, true, 0⟩ ⟨0, []⟩
      [Call.submit 1, Call.reset, Call.init 0 97, Call.cleanup, Call.submit 2] rfl
      (by decide)).1 [Call.submit 1, Call.reset, Call.init 0 97, Call.cleanup] 2 [] rfl⟩

end GpuH618
